import Mathlib

/-!
# Verification of the outbound-dialer call orchestration engine

Shallow embedding of the repository's core state and operations:

* `storage.py` — per-call state map, campaign record, transfer gate,
  completion registry, call-history persistence, DNC list;
* `app.py` (`webhook`) — the per-call event state machine, including the
  AMD fallback timer `_amd_fallback`;
* `telnyx_client.py` (`transfer_call`, `_normalize_number`) — the provider
  command wrapper with its caller-id retry;
* `call_manager.py` (`_dial_sequential`, `_dial_simultaneous`,
  `_place_single_call`) — the dial scheduler.

Modelling conventions, stated once:

* Python `datetime` values are modelled by their epoch seconds as `Int`;
  the history-timestamp parser `_parse_ts` is total on these, so the
  7-day cleanup filter in `persist_call_log` compares integers directly.
* Dictionaries keyed by call id are association lists with unique keys;
  insertion of a fresh key appends (Python dict insertion order), update
  replaces in place.
* Network I/O is an oracle in an `Env` record: each provider command's
  HTTP status is a function of its arguments; `requests` exceptions are
  modelled as status `599` (any status `>= 400` makes
  `raise_for_status` raise).
* Logging, webhook statistics (`record_webhook_event`), the contacts
  collaborator (`record_contact_called`) and the recording-url store
  (`store_recording_url`) touch none of the modelled components and are
  elided.
-/

/-- One transcript fragment, `{"text": .., "track": .., "is_final": ..}`
as appended by `storage.append_transcript`. -/
structure TranscriptEntry where
  text : String
  track : String
  is_final : Bool
deriving DecidableEq, Repr

/-- The per-call record created by `storage.create_call_state`.  The key
`amd_received` is absent from the freshly created dict and only added by
`update_call_state` kwargs, hence `Option Bool` with `none` for "absent"
(Python `state.get("amd_received")` is falsy for both `None` and `False`).
`is_transfer_leg` is read in `app.webhook` but never written anywhere in
the repository, so it is omitted (always falsy). -/
structure CallState where
  number : String
  from_number : String
  status : String
  machine_detected : Option Bool
  transferred : Bool
  voicemail_dropped : Bool
  playback_started : Bool
  created_at : Int
  ring_start : Option Int
  ring_end : Option Int
  status_description : String
  status_color : String
  amd_result : Option String
  amd_received : Option Bool
  hangup_cause : Option String
  transcript : List TranscriptEntry
deriving DecidableEq, Repr

/-- `call_states`: dict keyed by call id. -/
abbrev CallMap := List (String × CallState)

/-- Dict lookup (`call_states.get(cid)`). -/
def lookupCS : CallMap → String → Option CallState
  | [], _ => none
  | (k, v) :: rest, id => if k = id then some v else lookupCS rest id

/-- Dict assignment (`call_states[cid] = st`): replace in place, or append
a fresh key. -/
def insertCS : CallMap → String → CallState → CallMap
  | [], id, st => [(id, st)]
  | (k, v) :: rest, id, st =>
      if k = id then (k, st) :: rest else (k, v) :: insertCS rest id st

/-- In-place field update of an existing record; identity if absent
(`update_call_state` semantics, return value unused by callers). -/
def updateCS : CallMap → String → (CallState → CallState) → CallMap
  | [], _, _ => []
  | (k, v) :: rest, id, f =>
      if k = id then (k, f v) :: rest else (k, v) :: updateCS rest id f

theorem lookupCS_insertCS_self (m : CallMap) (id : String) (st : CallState) :
    lookupCS (insertCS m id st) id = some st := by
  induction m with
  | nil => simp [insertCS, lookupCS]
  | cons p rest ih =>
      by_cases h : p.1 = id <;> simp [insertCS, lookupCS, h, ih]

theorem lookupCS_insertCS_ne (m : CallMap) (id k : String) (st : CallState)
    (h : k ≠ id) : lookupCS (insertCS m id st) k = lookupCS m k := by
  have hik : id ≠ k := fun hh => h hh.symm
  induction m with
  | nil => simp [insertCS, lookupCS, hik]
  | cons p rest ih =>
      by_cases h1 : p.1 = id
      · subst h1
        simp [insertCS, lookupCS, hik]
      · by_cases h2 : p.1 = k <;> simp [insertCS, lookupCS, h, h1, h2, ih]

theorem lookupCS_updateCS_self (m : CallMap) (id : String)
    (f : CallState → CallState) :
    lookupCS (updateCS m id f) id = (lookupCS m id).map f := by
  induction m with
  | nil => simp [updateCS, lookupCS]
  | cons p rest ih =>
      by_cases h : p.1 = id <;> simp [updateCS, lookupCS, h, ih]

theorem lookupCS_updateCS_ne (m : CallMap) (id k : String)
    (f : CallState → CallState) (h : k ≠ id) :
    lookupCS (updateCS m id f) k = lookupCS m k := by
  have hik : id ≠ k := fun hh => h hh.symm
  induction m with
  | nil => simp [updateCS, lookupCS]
  | cons p rest ih =>
      by_cases h1 : p.1 = id
      · subst h1
        simp [updateCS, lookupCS, hik]
      · by_cases h2 : p.1 = k <;> simp [updateCS, lookupCS, h, h1, h2, ih]

/-- `storage.create_call_state(call_control_id, number)`: unconditional
dict assignment of a fresh record.  `env_from` is `TELNYX_FROM_NUMBER`,
`now` the current utc time (used for both `created_at` and
`ring_start`). -/
def initialRecord (env_from : String) (now : Int) (number : String) : CallState :=
  { number := number
    from_number := env_from
    status := "initiated"
    machine_detected := none
    transferred := false
    voicemail_dropped := false
    playback_started := false
    created_at := now
    ring_start := some now
    ring_end := none
    status_description := "Call initiated"
    status_color := "blue"
    amd_result := none
    amd_received := none
    hangup_cause := none
    transcript := [] }

def create_call_state (env_from : String) (now : Int) (m : CallMap)
    (call_control_id number : String) : CallMap :=
  insertCS m call_control_id (initialRecord env_from now number)

/-- `storage.mark_transferred`: compare-and-set on the `transferred`
flag only. -/
def mark_transferred (m : CallMap) (call_control_id : String) :
    CallMap × Bool :=
  match lookupCS m call_control_id with
  | some st =>
      if st.transferred then (m, false)
      else (updateCS m call_control_id
              (fun s => { s with transferred := true, status := "transferred" }),
            true)
  | none => (m, false)

/-- `storage.mark_voicemail_dropped`: compare-and-set on the
`voicemail_dropped` flag only. -/
def mark_voicemail_dropped (m : CallMap) (call_control_id : String) :
    CallMap × Bool :=
  match lookupCS m call_control_id with
  | some st =>
      if st.voicemail_dropped then (m, false)
      else (updateCS m call_control_id
              (fun s => { s with voicemail_dropped := true,
                                 playback_started := true,
                                 status := "voicemail_playing" }),
            true)
  | none => (m, false)

/-- `storage.append_transcript`. -/
def append_transcript (m : CallMap) (call_control_id text track : String)
    (is_final : Bool) : CallMap × Bool :=
  match lookupCS m call_control_id with
  | some _ =>
      (updateCS m call_control_id
         (fun s => { s with transcript :=
            s.transcript ++ [⟨text, track, is_final⟩] }),
       true)
  | none => (m, false)

/-- One row of `logs/call_history.json` as built by
`storage.persist_call_log`. -/
structure HistEntry where
  call_id : String
  timestamp : Int
  number : String
  from_number : String
  status : String
  machine_detected : Option Bool
  transferred : Bool
  voicemail_dropped : Bool
  ring_duration : Option Int
  status_description : String
  status_color : String
  amd_result : Option String
  hangup_cause : Option String
  transcript : List TranscriptEntry
deriving DecidableEq, Repr

/-- The entry dict built inside `persist_call_log` for a live record. -/
def mkHistEntry (call_control_id : String) (st : CallState) (now : Int) :
    HistEntry :=
  { call_id := call_control_id
    timestamp := st.created_at
    number := st.number
    from_number := st.from_number
    status := st.status
    machine_detected := st.machine_detected
    transferred := st.transferred
    voicemail_dropped := st.voicemail_dropped
    ring_duration :=
      match st.ring_start with
      | some rs => some ((st.ring_end.getD now) - rs)
      | none => none
    status_description := st.status_description
    status_color := st.status_color
    amd_result := st.amd_result
    hangup_cause := st.hangup_cause
    transcript := st.transcript }

/-- Seconds in 7 days, the history retention window. -/
def sevenDays : Int := 7 * 86400

/-- `storage.persist_call_log`: append the entry for the (still live)
record, then drop entries older than 7 days.  Identity when the id has no
live record. -/
def persist_call_log (m : CallMap) (call_control_id : String)
    (history : List HistEntry) (now : Int) : List HistEntry :=
  match lookupCS m call_control_id with
  | none => history
  | some st =>
      let entry := mkHistEntry call_control_id st now
      (history ++ [entry]).filter (fun h => now - sevenDays ≤ h.timestamp)

/-- Completion registry `_call_complete_events`: the set of ids holding a
pending one-shot event. -/
abbrev Registry := List String

/-- `storage.signal_call_complete`: pop and fire if present; no-op if
absent.  The `Bool` records whether an event was actually fired. -/
def signal_call_complete (reg : Registry) (call_control_id : String) :
    Registry × Bool :=
  if reg.contains call_control_id then (reg.erase call_control_id, true)
  else (reg, false)

/-- Transfer gate `_active_transfer_cids` (a Python `set`). -/
abbrev Gate := List String

/-- `storage.pause_for_transfer`: add the id to the pinned set. -/
def pause_for_transfer (g : Gate) (call_control_id : String) : Gate :=
  if g.contains call_control_id then g else g ++ [call_control_id]

/-- `storage.resume_after_transfer(cid)` (the one-id form used by the
webhook): discard the id; the pause event reopens once the set is empty,
which is just emptiness of this list. -/
def resume_after_transfer (g : Gate) (call_control_id : String) : Gate :=
  g.erase call_control_id

/-- `storage.is_active_transfer`. -/
def is_active_transfer (g : Gate) (call_control_id : String) : Bool :=
  g.contains call_control_id

/-- The process-wide `storage.campaign` dict.  `dial_delay` is absent from
the initial dict and only added by `set_campaign`, hence `Option`. -/
structure Campaign where
  active : Bool
  audio_url : Option String
  transfer_number : Option String
  numbers : List String
  dialed_count : Nat
  stop_requested : Bool
  dial_mode : String
  batch_size : Int
  dial_delay : Option Int
deriving DecidableEq, Repr

/-- Python truthiness of an optional string (`None` and `""` are falsy). -/
def truthyS : Option String → Bool
  | none => false
  | some s => !(s = "")

/-- Python `a or b` on an optional/defaulted string and a fallback. -/
def pyOrS (a : Option String) (b : String) : String :=
  match a with
  | some s => if s = "" then b else s
  | none => b

/-- `storage.set_campaign`: replace the campaign wholesale, clamping
`batch_size` to 1..50 and `dial_delay` to 1..10, and clear all live call
state. -/
def set_campaign (audio_url transfer_number : Option String)
    (numbers : List String) (dial_mode : String)
    (batch_size dial_delay : Int) : Campaign × CallMap :=
  ({ active := true
     audio_url := audio_url
     transfer_number := transfer_number
     numbers := numbers
     dialed_count := 0
     stop_requested := false
     dial_mode := dial_mode
     batch_size := max 1 (min batch_size 50)
     dial_delay := some (max 1 (min 10 dial_delay)) },
   [])

/-- `storage.DEFAULT_VOICEMAIL_URL` (abbreviated to its scheme+host; only
non-emptiness matters to any claim). -/
def DEFAULT_VOICEMAIL_URL : String :=
  "https://res.cloudinary.com/doaojtas6/video/upload/v1770290941/ElevenLabs.wav"

/-- The `voicemail_url` key of `logs/app_settings.json`: `none` when the
file is absent/unreadable or lacks the key. -/
abbrev VmSettings := Option String

/-- `storage.get_voicemail_url`: the stored value if the key is present,
else the hard-coded default. -/
def get_voicemail_url (s : VmSettings) : String :=
  match s with
  | some v => v
  | none => DEFAULT_VOICEMAIL_URL

/-- Python `a or b` on two strings. -/
def pyOr2 (a b : String) : String := if a = "" then b else a

/-- Python `str.strip()`: drop leading and trailing whitespace
(structurally recursive so that concrete runs reduce in the kernel;
`String.trim` is extensionally the same but defined by well-founded
recursion). -/
def pyStrip (s : String) : String :=
  String.mk (((s.toList.dropWhile Char.isWhitespace).reverse.dropWhile
    Char.isWhitespace).reverse)

/-- Python string membership `a in b` on character lists. -/
def subOf (a b : List Char) : Bool :=
  (List.range (b.length + 1)).any (fun i => (b.drop i).take a.length == a)

/-- `telnyx_client._normalize_number`: strip, keep digits, prepend `+`
(both branches of the Python `if` return the same). -/
def normalize_number (n : String) : String :=
  "+" ++ String.mk ((pyStrip n).toList.filter Char.isDigit)

/-- `x.lstrip("+").replace("-", "").replace(" ", "")`, the key
normalization used for transfer-leg detection in `app.webhook`. -/
def normKey (s : String) : String :=
  String.mk ((s.toList.dropWhile (fun c => c == '+')).filter
    (fun c => !(c == '-') && !(c == ' ')))

/-- `resp.raise_for_status()` does not raise exactly for statuses below
400. -/
def httpOk (status : Nat) : Bool := status < 400

/-- Provider commands issued by the event handler, in issue order.  A
`transfer` command records the POST attempts of one `transfer_call`
invocation as `(from-number, HTTP status)` pairs. -/
inductive Command where
  | transfer (ccid toNum : String) (attempts : List (String × Nat))
  | play (ccid url : String)
  | hangup (ccid : String)
  | startTranscription (ccid : String)
  | startRecording (ccid : String)
deriving DecidableEq, Repr

/-- The ambient environment: configuration and network oracles. -/
structure Env where
  /-- `TELNYX_FROM_NUMBER`. -/
  telnyxFrom : String
  /-- HTTP status of a transfer POST, as a function of
  `(call_control_id, to, from)`. -/
  transferStatus : String → String → String → Nat
  /-- `personalized_vm.get_personalized_audio_url`. -/
  personalizedUrl : String → Option String
  /-- The `script` text of the personalized-audio map entry matching a
  customer number, if any (the digit-matching loop in the machine
  branch). -/
  pvmScript : String → Option String
  /-- The `voicemail_url` key of `logs/app_settings.json`. -/
  vmSettings : VmSettings

/-- `telnyx_client.transfer_call`: first attempt with the customer's
number as caller-id when one is given, one retry with the service's own
number when that attempt comes back 403.  Returns the attempts and the
final success (`raise_for_status` on the last response). -/
def transfer_call (env : Env) (call_control_id to_number customer_number :
    String) : List (String × Nat) × Bool :=
  let telnyx := env.telnyxFrom
  let from_display :=
    if customer_number = "" then telnyx else normalize_number customer_number
  let to_n := normalize_number to_number
  let s1 := env.transferStatus call_control_id to_n from_display
  if s1 = 403 ∧ ¬(customer_number = "") ∧ ¬(from_display = telnyx) then
    let s2 := env.transferStatus call_control_id to_n telnyx
    ([(from_display, s1), (telnyx, s2)], httpOk s2)
  else
    ([(from_display, s1)], httpOk s1)

/-- Keys of `_amd_timers`: the armed, not yet cancelled fallback timers.
Dict assignment re-arms in place. -/
def insertSet (l : List String) (x : String) : List String :=
  if l.contains x then l else l ++ [x]

/-- The duration `threading.Timer(8.0, _amd_fallback, ...)` is armed
with. -/
def AMD_FALLBACK_SECS : Nat := 8

/-- All process-wide mutable state the claims mention. -/
structure SysState where
  calls : CallMap
  history : List HistEntry
  timers : List String
  gate : Gate
  registry : Registry
  campaign : Campaign
  commands : List Command
deriving DecidableEq, Repr

/-- One inbound webhook body's payload, with the fields the handler
reads.  `transcript_text` and `is_final` stand for the values after the
nested `transcription_data`/`data` fallback extraction. -/
structure Ev where
  event_type : String
  call_control_id : String
  toNum : String
  fromNum : String
  result : String
  transcript_text : String
  is_final : Bool
  track_field : String
  transcription_event_type : String
  hangup_cause : String
  hangup_source : String
deriving DecidableEq, Repr

/-- Transfer-leg classification for an unknown id (`app.webhook` lines
1316-1321): the normalized `to` number and the normalized configured
transfer number contain one another. -/
def transferLegDetect (transfer_num toNum : String) : Bool :=
  let nt := normKey toNum
  let nx := normKey transfer_num
  !(transfer_num = "") && !(nx = "") && !(nt = "") &&
    (subOf nx.toList nt.toList || subOf nt.toList nx.toList)

/-- Transfer-leg `call.answered`: set every transferred, gate-pinned
parent to "speaking now". -/
def handleLegAnswered (s : SysState) : SysState :=
  { s with calls := s.calls.map (fun p =>
      if p.2.transferred && is_active_transfer s.gate p.1 then
        (p.1, { p.2 with status := "transferred",
                         status_description := "Connected to a human, speaking now",
                         status_color := "green" })
      else p) }

/-- The per-parent body of the transfer-leg `call.hangup` loop: update the
parent record, unpin it, signal its completion. -/
def legHangupFold (env_gate0 : List (String × CallState)) (s : SysState) :
    SysState :=
  match env_gate0 with
  | [] => s
  | (k, stSnap) :: rest =>
      if stSnap.transferred && is_active_transfer s.gate k then
        legHangupFold rest
          { s with
            calls := updateCS s.calls k (fun st =>
              { st with status := "transferred",
                        status_description := "Transfer call ended",
                        status_color := "green" }),
            gate := resume_after_transfer s.gate k,
            registry := (signal_call_complete s.registry k).1 }
      else legHangupFold rest s

/-- Transfer-leg `call.hangup`: iterate the snapshot of the live map. -/
def handleLegHangup (s : SysState) : SysState :=
  legHangupFold s.calls s

/-- `call.initiated`. -/
def handleInitiated (now : Int) (s : SysState) (id fromN : String) :
    SysState :=
  { s with calls := updateCS s.calls id (fun x =>
      { x with status := "ringing", ring_start := some now,
               from_number := fromN,
               status_description := "Ringing", status_color := "blue" }) }

/-- `call.answered`: early return for an already transferred call, else
record the answer, best-effort start transcription and recording, and arm
the 8-second AMD fallback timer. -/
def handleAnswered (now : Int) (s : SysState) (id : String) : SysState :=
  if (lookupCS s.calls id).elim false (·.transferred) then
    { s with calls := updateCS s.calls id (fun x =>
        { x with status := "transferred",
                 status_description := "Connected to a human, speaking now",
                 status_color := "green" }) }
  else
    { s with
      calls := updateCS s.calls id (fun x =>
        { x with status := "answered", amd_received := some false,
                 ring_end := some now,
                 status_description := "Answered - detecting...",
                 status_color := "blue" }),
      commands := s.commands ++ [Command.startTranscription id, Command.startRecording id],
      timers := insertSet s.timers id }

/-- The shared post-CAS transfer sequence (`transfer_call` plus the
success/failure continuations - identical at its three call sites). -/
def doTransfer (env : Env) (s : SysState)
    (id transfer_num customer_num : String) : SysState :=
  let r := transfer_call env id transfer_num customer_num
  let s1 := { s with commands :=
    s.commands ++ [Command.transfer id (normalize_number transfer_num) r.1] }
  if r.2 then
    { s1 with
      gate := pause_for_transfer s1.gate id,
      calls := updateCS s1.calls id (fun x =>
        { x with status := "transferred",
                 status_description := "Answered by human - transferred (campaign paused)",
                 status_color := "green" }) }
  else
    { s1 with
      calls := updateCS s1.calls id (fun x =>
        { x with status := "transfer_failed",
                 status_description := "Transfer failed",
                 status_color := "red" }),
      commands := s1.commands ++ [Command.hangup id] }

/-- The `result == "human"` branch of `call.machine.detection.ended`,
starting from the state `s1` that already has `amd_received` set. -/
def amdHumanCore (env : Env) (s1 : SysState) (id : String) : SysState :=
  let s2 := { s1 with calls := updateCS s1.calls id (fun x =>
    { x with machine_detected := some false, status := "human_detected",
             amd_result := some "human",
             status_description := "Human detected",
             status_color := "blue" }) }
  let transfer_num := (s2.campaign.transfer_number).getD ""
  let customer := ((lookupCS s2.calls id).map (·.number)).getD ""
  if transfer_num = "" then
    { s2 with
      calls := updateCS s2.calls id (fun x =>
        { x with status := "human_no_transfer",
                 status_description := "Human answered - no transfer number",
                 status_color := "yellow" }),
      commands := s2.commands ++ [Command.hangup id] }
  else
    let r := mark_transferred s2.calls id
    let s3 := { s2 with calls := r.1 }
    if r.2 then doTransfer env s3 id transfer_num customer else s3

/-- The `result == "machine"` branch of `call.machine.detection.ended`. -/
def amdMachineCore (env : Env) (s1 : SysState) (id : String) : SysState :=
  let s2 := { s1 with calls := updateCS s1.calls id (fun x =>
    { x with machine_detected := some true, status := "machine_detected",
             amd_result := some "machine",
             status_description := "Machine detected - dropping voicemail",
             status_color := "blue" }) }
  let r := mark_voicemail_dropped s2.calls id
  let s3 := { s2 with calls := r.1 }
  if r.2 then
    let s4 := { s3 with calls := updateCS s3.calls id (fun x =>
      { x with status_description := "Dropping voicemail...",
               status_color := "blue" }) }
    let customer := ((lookupCS s4.calls id).map (·.number)).getD ""
    let personalized : Option String :=
      if customer = "" then none else env.personalizedUrl customer
    let audio_url := pyOrS personalized
      (pyOrS s4.campaign.audio_url (get_voicemail_url env.vmSettings))
    let s5 :=
      if truthyS personalized then
        { s4 with calls := updateCS s4.calls id (fun x =>
          { x with status_description := "Dropping personalized voicemail...",
                   status_color := "blue" }) }
      else s4
    if audio_url = "" then
      { s5 with
        calls := updateCS s5.calls id (fun x =>
          { x with status_description := "Voicemail failed - no audio",
                   status_color := "red" }),
        commands := s5.commands ++ [Command.hangup id] }
    else
      let s6 := { s5 with commands := s5.commands ++ [Command.play id audio_url] }
      let script : Option String :=
        if truthyS personalized ∧ ¬(customer = "") then env.pvmScript customer
        else none
      let text := match script with
        | some t => if t = "" then "[Voicemail audio playing]" else t
        | none => "[Voicemail audio playing]"
      { s6 with calls := (append_transcript s6.calls id text "outbound" true).1 }
  else s3

/-- The `result == "not_sure"` branch of `call.machine.detection.ended`
(its `else` also covers a lost CAS, unlike the human branch). -/
def amdNotSureCore (env : Env) (s1 : SysState) (id : String) : SysState :=
  let s2 := { s1 with calls := updateCS s1.calls id (fun x =>
    { x with machine_detected := some false, status := "human_detected",
             amd_result := some "not_sure",
             status_description := "Detection unclear - treating as human",
             status_color := "yellow" }) }
  let transfer_num := (s2.campaign.transfer_number).getD ""
  let customer := ((lookupCS s2.calls id).map (·.number)).getD ""
  let r := if transfer_num = "" then (s2.calls, false)
           else mark_transferred s2.calls id
  let s3 := { s2 with calls := r.1 }
  if r.2 then doTransfer env s3 id transfer_num customer
  else
    { s3 with
      calls := updateCS s3.calls id (fun x =>
        { x with status_description := "No transfer number configured",
                 status_color := "yellow" }),
      commands := s3.commands ++ [Command.hangup id] }

/-- `call.machine.detection.ended`. -/
def handleAmd (env : Env) (s : SysState) (id result : String) : SysState :=
  if (lookupCS s.calls id).elim false (·.transferred) then s
  else
    let s1 := { s with
      timers := s.timers.erase id,
      calls := updateCS s.calls id (fun x => { x with amd_received := some true }) }
    match lookupCS s1.calls id with
    | none => s1
    | some _ =>
      if result = "human" then amdHumanCore env s1 id
      else if result = "fax" then
        { s1 with
          calls := updateCS s1.calls id (fun x =>
            { x with machine_detected := some true, status := "machine_detected",
                     amd_result := some "fax",
                     status_description := "Fax machine detected",
                     status_color := "red" }),
          commands := s1.commands ++ [Command.hangup id] }
      else if result = "machine" then amdMachineCore env s1 id
      else if result = "not_sure" then amdNotSureCore env s1 id
      else
        { s1 with
          calls := updateCS s1.calls id (fun x =>
            { x with status := "no_answer", amd_result := some result,
                     status_description := "Unknown AMD result: " ++ result,
                     status_color := "yellow" }),
          commands := s1.commands ++ [Command.hangup id] }

/-- `call.machine.greeting.ended` / `call.machine.premium.greeting.ended`. -/
def handleGreeting (env : Env) (s : SysState) (id beep : String) : SysState :=
  match lookupCS s.calls id with
  | none => s
  | some st =>
      if st.voicemail_dropped then
        let customer := st.number
        let personalized : Option String :=
          if customer = "" then none else env.personalizedUrl customer
        let audio_url := pyOrS personalized
          (pyOrS s.campaign.audio_url (get_voicemail_url env.vmSettings))
        if ¬(audio_url = "") ∧ beep = "beep_detected" then
          { s with commands := s.commands ++ [Command.play id audio_url] }
        else s
      else s

/-- `call.playback.ended`. -/
def handlePlayback (s : SysState) (id : String) : SysState :=
  match lookupCS s.calls id with
  | none => s
  | some st =>
      if st.voicemail_dropped then
        { s with
          calls := updateCS s.calls id (fun x =>
            { x with status := "voicemail_complete",
                     status_description := "Voicemail dropped successfully",
                     status_color := "green" }),
          commands := s.commands ++ [Command.hangup id] }
      else s

/-- `call.transcription`: append the fragment when a text was extracted. -/
def handleTranscription (s : SysState) (e : Ev) : SysState :=
  let text := e.transcript_text
  let track := pyOr2 e.track_field (pyOr2 e.transcription_event_type "inbound")
  if text = "" then s
  else { s with calls :=
    (append_transcript s.calls e.call_control_id text track e.is_final).1 }

/-- The fixed hangup-cause lookup table (`hangup_desc_map`). -/
def hangupDescColor (ring_dur normal_desc cause : String) :
    Option (String × String) :=
  if cause = "BUSY" then some ("Line busy", "red")
  else if cause = "USER_BUSY" then some ("Line busy", "red")
  else if cause = "NO_ANSWER" then some ("No answer" ++ ring_dur, "red")
  else if cause = "ORIGINATOR_CANCEL" then some ("No answer" ++ ring_dur, "red")
  else if cause = "INVALID_NUMBER" then some ("Invalid or disconnected number", "red")
  else if cause = "UNALLOCATED_NUMBER" then some ("Invalid or disconnected number", "red")
  else if cause = "NUMBER_CHANGED" then some ("Number no longer in service", "red")
  else if cause = "CALL_REJECTED" then some ("Call rejected", "red")
  else if cause = "NORMAL_TEMPORARY_FAILURE" then some ("Call failed - network error", "red")
  else if cause = "SERVICE_UNAVAILABLE" then some ("Call failed - service unavailable", "red")
  else if cause = "NETWORK_OUT_OF_ORDER" then some ("Call failed - network error", "red")
  else if cause = "RECOVERY_ON_TIMER_EXPIRE" then some ("No voicemail system detected" ++ ring_dur, "yellow")
  else if cause = "NORMAL_CLEARING" then some (normal_desc, "yellow")
  else none

/-- The final-record update built in the `call.hangup` branch; conditions
read the pre-update record exactly as the Python reads `state`, and only
the keys put into `updates` change. -/
def hangupUpdates (now : Int) (cause source : String) (st : CallState) :
    CallState :=
  let ring_dur := match st.ring_start with
    | some rs => " - rang " ++ toString ((st.ring_end.getD now) - rs) ++ "s"
    | none => ""
  let normal_desc :=
    if source = "callee" then "Disconnected by recipient"
    else "Call disconnected"
  let nonFinal := !(st.status == "transferred") && !(st.status == "voicemail_complete")
  let dc : Option (String × String) :=
    if nonFinal then
      match hangupDescColor ring_dur normal_desc cause with
      | some p => some p
      | none =>
          if st.status = "ringing" ∨ st.status = "initiated" then
            some ("Call failed (" ++ cause ++ ")", "red")
          else if st.status_description = "" ∨ st.status_color = "blue" then
            some ("Call ended (" ++ cause ++ ")", "yellow")
          else none
    else none
  { st with
    hangup_cause := some cause,
    status := if nonFinal then "hangup" else st.status,
    status_description := (dc.map Prod.fst).getD st.status_description,
    status_color := (dc.map Prod.snd).getD st.status_color,
    ring_end := if st.ring_end.isNone then some now else st.ring_end }

/-- `call.hangup` (primary call): cancel timers, unpin the gate if this id
is pinned, finalize the record, persist it to history and fire the
completion signal.  The best-effort contacts notification touches no
modelled component. -/
def handleHangup (now : Int) (s : SysState) (id cause source : String) :
    SysState :=
  let timers1 := (s.timers.erase id).erase ("beep_" ++ id)
  let gate1 :=
    if is_active_transfer s.gate id then resume_after_transfer s.gate id
    else s.gate
  let calls1 := match lookupCS s.calls id with
    | some st => updateCS s.calls id (fun _ => hangupUpdates now cause source st)
    | none => s.calls
  let history1 := persist_call_log calls1 id s.history now
  { s with timers := timers1, gate := gate1, calls := calls1,
           history := history1,
           registry := (signal_call_complete s.registry id).1 }

/-- The event-type dispatch of `app.webhook` for a primary (non
transfer-leg) call, acting on the state after the unknown-id prelude. -/
def webhookDispatch (env : Env) (now : Int) (s0 : SysState) (e : Ev) :
    SysState :=
  let id := e.call_control_id
  if e.event_type = "call.initiated" then handleInitiated now s0 id e.fromNum
  else if e.event_type = "call.answered" then handleAnswered now s0 id
  else if e.event_type = "call.machine.detection.ended" then
    handleAmd env s0 id e.result
  else if e.event_type = "call.machine.greeting.ended" ∨
          e.event_type = "call.machine.premium.greeting.ended" then
    handleGreeting env s0 id e.result
  else if e.event_type = "call.playback.ended" then handlePlayback s0 id
  else if e.event_type = "call.transcription" then handleTranscription s0 e
  else if e.event_type = "call.recording.saved" then s0
  else if e.event_type = "call.hangup" then
    handleHangup now s0 id e.hangup_cause e.hangup_source
  else s0

/-- `app.webhook`: the prelude (transfer-leg detection / auto-creation for
an unknown id) followed by the event-type dispatch.  The Python
`AttributeError` when `transfer_number` is `None` and an unknown id
arrives is outside every claim and modelled as a non-match. -/
def webhookStep (env : Env) (now : Int) (s : SysState) (e : Ev) : SysState :=
  let id := e.call_control_id
  let call_number := pyOr2 e.toNum e.fromNum
  let state0 := lookupCS s.calls id
  let transfer_num := (s.campaign.transfer_number).getD ""
  let canClassify := state0.isNone ∧ ¬(id = "") ∧ ¬(call_number = "")
  let is_leg := canClassify ∧ transferLegDetect transfer_num e.toNum
  let s0 :=
    if canClassify ∧ ¬transferLegDetect transfer_num e.toNum then
      { s with calls := create_call_state env.telnyxFrom now s.calls id call_number }
    else s
  if is_leg then
    if e.event_type = "call.answered" then handleLegAnswered s
    else if e.event_type = "call.hangup" then handleLegHangup s
    else s
  else webhookDispatch env now s0 e

/-- `app._amd_fallback`, the body of the 8-second timer: treat a still
unanswered AMD as human and transfer; always drop the timer handle at the
end. -/
def amd_fallback (env : Env) (s : SysState) (id : String) : SysState :=
  let s1 :=
    match lookupCS s.calls id with
    | some st =>
        if ¬(st.amd_received = some true) ∧ st.status = "answered" then
          let s2 := { s with calls := updateCS s.calls id (fun x =>
            { x with machine_detected := some false, status := "human_detected",
                     amd_received := some true, amd_result := some "timeout",
                     status_description := "AMD detection timeout",
                     status_color := "yellow" }) }
          let transfer_num := (s2.campaign.transfer_number).getD ""
          let customer := st.number
          let r := if transfer_num = "" then (s2.calls, false)
                   else mark_transferred s2.calls id
          let s3 := { s2 with calls := r.1 }
          if r.2 then doTransfer env s3 id transfer_num customer
          else
            { s3 with
              calls := updateCS s3.calls id (fun x =>
                { x with status := "human_no_transfer",
                         status_description := "Human answered - no transfer number",
                         status_color := "yellow" }),
              commands := s3.commands ++ [Command.hangup id] }
        else s
    | none => s
  { s1 with timers := s1.timers.erase id }

/-- One asynchronous step of the system: a webhook delivery or the expiry
of an armed fallback timer. -/
inductive Step where
  | web (now : Int) (e : Ev)
  | fire (id : String)
deriving DecidableEq, Repr

def stepRun (env : Env) (s : SysState) : Step → SysState
  | .web now e => webhookStep env now s e
  | .fire id => amd_fallback env s id

/-- A timer only expires while its handle is still armed (a cancelled or
already-fired timer does not run again). -/
def stepOk (s : SysState) : Step → Bool
  | .fire id => s.timers.contains id
  | .web _ _ => true

def runSteps (env : Env) (s : SysState) : List Step → SysState
  | [] => s
  | st :: rest => runSteps env (stepRun env s st) rest

def traceOk (env : Env) (s : SysState) : List Step → Bool
  | [] => true
  | st :: rest => stepOk s st && traceOk env (stepRun env s st) rest

/-- `storage.is_dnc`: membership of the stripped number among the DNC
entries' numbers. -/
def is_dnc (dnc : List String) (number : String) : Bool :=
  dnc.contains (pyStrip number)

/-- Environment of the dial loops.  `contAt k` is the k-th iteration's
continue-decision (campaign still active and, when the transfer gate was
closed, still active after the bounded wait); `callResult` is the
provider's answer to `make_call`. -/
structure DialEnv where
  contAt : Nat → Bool
  dnc : List String
  callResult : String → Option String

/-- Observable actions of a dial loop.  `increment` is one
`increment_dialed()` call; the sequential loop's completion-event wait
and the pacing sleeps produce no action. -/
inductive DialEvent where
  | placeCall (number : String)
  | createState (id number : String)
  | increment
deriving DecidableEq, Repr

/-- `call_manager._dial_sequential`, iteration `k` onwards. -/
def dialSeqGo (env : DialEnv) : Nat → List String → List DialEvent
  | _, [] => []
  | k, n :: rest =>
    if env.contAt k then
      let n' := pyStrip n
      if n' = "" then dialSeqGo env (k + 1) rest
      else if is_dnc env.dnc n' then
        DialEvent.increment :: dialSeqGo env (k + 1) rest
      else
        match env.callResult n' with
        | some id =>
            DialEvent.placeCall n' :: DialEvent.createState id n' ::
              DialEvent.increment :: dialSeqGo env (k + 1) rest
        | none =>
            DialEvent.placeCall n' :: DialEvent.increment ::
              dialSeqGo env (k + 1) rest
    else []

def dialSequential (env : DialEnv) (numbers : List String) : List DialEvent :=
  dialSeqGo env 0 numbers

/-- `call_manager._place_single_call` (thread body of the simultaneous
mode). -/
def placeSingle (env : DialEnv) (number : String) : List DialEvent :=
  if is_dnc env.dnc number then []
  else
    match env.callResult number with
    | some id => [DialEvent.placeCall number, DialEvent.createState id number]
    | none => [DialEvent.placeCall number]

/-- `call_manager._dial_simultaneous`, one `while` iteration per fuel
unit (fuel `numbers.length` suffices for any batch size ≥ 1; the Python
loop diverges for batch size 0).  Thread bodies of one batch are
serialized - every property claimed of them is order-insensitive. -/
def dialSimGo (env : DialEnv) (bs : Nat) : Nat → Nat → List String → List DialEvent
  | 0, _, _ => []
  | _ + 1, _, [] => []
  | fuel + 1, k, n :: ns =>
    if env.contAt k then
      let batch := (n :: ns).take bs
      let rest := (n :: ns).drop bs
      let batch_nums := (batch.map pyStrip).filter (fun x => !(x = ""))
      if batch_nums.isEmpty then dialSimGo env bs fuel (k + 1) rest
      else
        (batch_nums.map (placeSingle env)).flatten ++
          batch_nums.map (fun _ => DialEvent.increment) ++
          dialSimGo env bs fuel (k + 1) rest
    else []

def dialSimultaneous (env : DialEnv) (bs : Nat) (numbers : List String) :
    List DialEvent :=
  dialSimGo env bs numbers.length 0 numbers

/-- Reachable states of the `voicemail_url` setting: initially the file
is absent; every write goes through `app.save_vm_settings`, which strips
the submitted url and rejects it unless it is non-empty and starts with
`http://` or `https://`. -/
inductive ReachableVmSettings : VmSettings → Prop
  | init : ReachableVmSettings none
  | save (url : String) (prev : VmSettings)
      (h0 : ReachableVmSettings prev)
      (h1 : ¬(pyStrip url = ""))
      (h2 : (pyStrip url).startsWith "http://" ∨
            (pyStrip url).startsWith "https://") :
      ReachableVmSettings (some (pyStrip url))

/-- Is this command a transfer of the given call id? -/
def isTransferFor (id : String) : Command → Bool
  | .transfer c _ _ => c = id
  | _ => false

/-- Number of transfer commands issued for a call id. -/
def tCount (id : String) (cmds : List Command) : Nat :=
  (cmds.filter (isTransferFor id)).length

/-- The live `transferred` flag of a call id (false when absent). -/
def transferredFlag (s : SysState) (id : String) : Bool :=
  (lookupCS s.calls id).elim false (·.transferred)

/-- The linchpin invariant behind "never a second transfer": a transfer
command exists for an id only once its CAS flag is up, and then at most
one. -/
def TransferInv (id : String) (s : SysState) : Prop :=
  tCount id s.commands ≤ if transferredFlag s id then 1 else 0

theorem tCount_append (id : String) (a b : List Command) :
    tCount id (a ++ b) = tCount id a + tCount id b := by
  simp [tCount, List.filter_append]

theorem tCount_nonTransfer (id : String) (c : Command)
    (h : isTransferFor id c = false) : tCount id [c] = 0 := by
  simp [tCount, h]

/-- The `transferred` flag as read off a raw call map. -/
def flagM (m : CallMap) (id : String) : Bool :=
  (lookupCS m id).elim false (·.transferred)

theorem transferredFlag_eq_flagM (s : SysState) (id : String) :
    transferredFlag s id = flagM s.calls id := rfl

theorem flagM_updateCS (m : CallMap) (c id : String) (f : CallState → CallState)
    (hf : ∀ st, (f st).transferred = st.transferred) :
    flagM (updateCS m c f) id = flagM m id := by
  by_cases h : id = c
  · subst h
    simp only [flagM, lookupCS_updateCS_self]
    cases lookupCS m id <;> simp [hf]
  · simp [flagM, lookupCS_updateCS_ne _ _ _ _ h]

theorem flagM_updateCS_const (m : CallMap) (c id : String) (st : CallState)
    (g : CallState → CallState) (hst : lookupCS m c = some st)
    (hg : (g st).transferred = st.transferred) :
    flagM (updateCS m c g) id = flagM m id := by
  by_cases h : id = c
  · subst h
    simp [flagM, lookupCS_updateCS_self, hst, hg]
  · simp [flagM, lookupCS_updateCS_ne _ _ _ _ h]

theorem flagM_create (envf : String) (now : Int) (m : CallMap) (c n id : String) :
    flagM (create_call_state envf now m c n) id =
      if id = c then false else flagM m id := by
  by_cases h : id = c
  · subst h
    simp [flagM, create_call_state, lookupCS_insertCS_self, initialRecord]
  · simp [flagM, create_call_state, lookupCS_insertCS_ne _ _ _ _ h, h]

theorem mark_transferred_false (m : CallMap) (c : String)
    (h : (mark_transferred m c).2 = false) : (mark_transferred m c).1 = m := by
  unfold mark_transferred at *
  cases hl : lookupCS m c with
  | none => simp [hl]
  | some st =>
      by_cases ht : st.transferred
      · simp [hl, ht]
      · simp [hl, ht] at h

theorem mark_transferred_true (m : CallMap) (c : String)
    (h : (mark_transferred m c).2 = true) :
    flagM m c = false ∧ flagM (mark_transferred m c).1 c = true ∧
      ∀ id, ¬(id = c) → flagM (mark_transferred m c).1 id = flagM m id := by
  unfold mark_transferred at *
  cases hl : lookupCS m c with
  | none => simp [hl] at h
  | some st =>
      by_cases ht : st.transferred
      · simp [hl, ht] at h
      · refine ⟨by simp [flagM, hl, ht], ?_, ?_⟩
        · simp [hl, ht, flagM, lookupCS_updateCS_self]
        · intro id hid
          simp [hl, ht, flagM, lookupCS_updateCS_ne _ _ _ _ hid]

theorem flagM_mvd (m : CallMap) (c id : String) :
    flagM (mark_voicemail_dropped m c).1 id = flagM m id := by
  unfold mark_voicemail_dropped
  cases hl : lookupCS m c with
  | none => simp
  | some st =>
      by_cases hd : st.voicemail_dropped
      · simp [hd]
      · simp only [hd]
        exact flagM_updateCS m c id _ (fun st => rfl)

theorem flagM_append_transcript (m : CallMap) (c t tr : String) (fin : Bool)
    (id : String) :
    flagM (append_transcript m c t tr fin).1 id = flagM m id := by
  unfold append_transcript
  cases hl : lookupCS m c with
  | none => simp
  | some st =>
      simp only
      exact flagM_updateCS m c id _ (fun st => rfl)

theorem tCount_append_non (id : String) (cmds : List Command) (c : Command)
    (h : isTransferFor id c = false) :
    tCount id (cmds ++ [c]) = tCount id cmds := by
  simp [tCount_append, tCount, h]

theorem doTransfer_spec (env : Env) (s : SysState) (c tn cn id : String) :
    flagM (doTransfer env s c tn cn).calls id = flagM s.calls id ∧
    tCount id (doTransfer env s c tn cn).commands =
      tCount id s.commands + (if c = id then 1 else 0) := by
  unfold doTransfer
  by_cases hr : (transfer_call env c tn cn).2
  · simp only [hr, if_true]
    constructor
    · exact flagM_updateCS _ c id _ (fun st => rfl)
    · by_cases hc : c = id <;> simp [tCount_append, tCount, isTransferFor, hc]
  · simp only [hr, if_false, Bool.false_eq_true]
    constructor
    · exact flagM_updateCS _ c id _ (fun st => rfl)
    · by_cases hc : c = id <;> simp [tCount_append, tCount, isTransferFor, hc]

/-- A step that leaves a given id's transfer accounting untouched. -/
def EqEffect (s s' : SysState) (id : String) : Prop :=
  flagM s'.calls id = flagM s.calls id ∧
  tCount id s'.commands = tCount id s.commands

/-- A step either leaves the id's transfer accounting untouched or flips
its CAS flag false→true while issuing at most one transfer command. -/
def TransferEffect (s s' : SysState) (id : String) : Prop :=
  EqEffect s s' id ∨
  (flagM s.calls id = false ∧ flagM s'.calls id = true ∧
    tCount id s'.commands ≤ tCount id s.commands + 1)

theorem TransferInv_of_effect {s s' : SysState} {id : String}
    (h : TransferEffect s s' id) : TransferInv id s → TransferInv id s' := by
  intro hinv
  unfold TransferInv at *
  rw [transferredFlag_eq_flagM] at *
  rcases h with ⟨h1, h2⟩ | ⟨h1, h2, h3⟩
  · rw [h1, h2]; exact hinv
  · rw [h1] at hinv
    rw [h2]
    simp only [if_false, if_true, Bool.false_eq_true] at hinv ⊢
    omega

theorem flagM_updateCS2 (m : CallMap) (c id : String) (f g : CallState → CallState)
    (hf : ∀ st, (f st).transferred = st.transferred)
    (hg : ∀ st, (g st).transferred = st.transferred) :
    flagM (updateCS (updateCS m c f) c g) id = flagM m id := by
  rw [flagM_updateCS _ c id g hg, flagM_updateCS _ c id f hf]

theorem amdHumanCore_spec (env : Env) (s1 : SysState) (c id : String) :
    TransferEffect s1 (amdHumanCore env s1 c) id := by
  unfold amdHumanCore
  by_cases htn : (s1.campaign.transfer_number).getD "" = ""
  · simp only [htn, if_true]
    left
    refine ⟨?_, ?_⟩
    · dsimp only
      apply flagM_updateCS2 <;> intro st <;> rfl
    · dsimp only
      exact tCount_append_non id _ _ (by simp [isTransferFor])
  · simp only [htn, if_false]
    set m2 := updateCS s1.calls c (fun x =>
      { x with machine_detected := some false, status := "human_detected",
               amd_result := some "human",
               status_description := "Human detected",
               status_color := "blue" }) with hm2
    have hm2flag : ∀ j, flagM m2 j = flagM s1.calls j := by
      intro j
      rw [hm2]
      apply flagM_updateCS
      intro st
      rfl
    by_cases hr : (mark_transferred m2 c).2
    · simp only [hr, if_true]
      rcases mark_transferred_true m2 c hr with ⟨hf0, hf1, hfo⟩
      rcases doTransfer_spec env { s1 with calls := (mark_transferred m2 c).1 }
        c ((s1.campaign.transfer_number).getD "")
        (((lookupCS m2 c).map (·.number)).getD "") id with ⟨hdf, hdc⟩
      by_cases hic : id = c
      · subst hic
        right
        refine ⟨?_, ?_, ?_⟩
        · rw [← hm2flag id]; exact hf0
        · rw [hdf]; exact hf1
        · rw [hdc]; simp
      · have hci : ¬(c = id) := fun h => hic h.symm
        left
        refine ⟨?_, ?_⟩
        · rw [hdf]
          dsimp only
          rw [hfo id hic, hm2flag id]
        · rw [hdc]
          simp [hci]
    · simp only [hr, if_false]
      left
      refine ⟨?_, ?_⟩
      · dsimp only
        rw [mark_transferred_false m2 c (by simpa using hr)]
        exact hm2flag id
      · rfl

theorem flagM_updateCS_of (m m0 : CallMap) (c id : String)
    (f : CallState → CallState)
    (hf : ∀ st, (f st).transferred = st.transferred)
    (h : flagM m id = flagM m0 id) :
    flagM (updateCS m c f) id = flagM m0 id := by
  rw [flagM_updateCS _ c id f hf, h]

theorem flagM_mvd_of (m m0 : CallMap) (c id : String)
    (h : flagM m id = flagM m0 id) :
    flagM (mark_voicemail_dropped m c).1 id = flagM m0 id := by
  rw [flagM_mvd, h]

theorem flagM_append_transcript_of (m m0 : CallMap) (c t tr : String)
    (fin : Bool) (id : String) (h : flagM m id = flagM m0 id) :
    flagM (append_transcript m c t tr fin).1 id = flagM m0 id := by
  rw [flagM_append_transcript, h]

theorem amdNotSureCore_spec (env : Env) (s1 : SysState) (c id : String) :
    TransferEffect s1 (amdNotSureCore env s1 c) id := by
  unfold amdNotSureCore
  set m2 := updateCS s1.calls c (fun x =>
    { x with machine_detected := some false, status := "human_detected",
             amd_result := some "not_sure",
             status_description := "Detection unclear - treating as human",
             status_color := "yellow" }) with hm2
  have hm2flag : ∀ j, flagM m2 j = flagM s1.calls j := by
    intro j
    rw [hm2]
    apply flagM_updateCS
    intro st
    rfl
  by_cases htn : (s1.campaign.transfer_number).getD "" = ""
  · simp only [htn, if_true]
    left
    refine ⟨?_, ?_⟩
    · dsimp only
      apply flagM_updateCS_of
      · intro st; rfl
      · exact hm2flag id
    · dsimp only
      exact tCount_append_non id _ _ (by simp [isTransferFor])
  · simp only [htn, if_false]
    by_cases hr : (mark_transferred m2 c).2
    · simp only [hr, if_true]
      rcases mark_transferred_true m2 c hr with ⟨hf0, hf1, hfo⟩
      rcases doTransfer_spec env { s1 with calls := (mark_transferred m2 c).1 }
        c ((s1.campaign.transfer_number).getD "")
        (((lookupCS m2 c).map (·.number)).getD "") id with ⟨hdf, hdc⟩
      by_cases hic : id = c
      · subst hic
        right
        refine ⟨?_, ?_, ?_⟩
        · rw [← hm2flag id]; exact hf0
        · rw [hdf]; exact hf1
        · rw [hdc]; simp
      · have hci : ¬(c = id) := fun h => hic h.symm
        left
        refine ⟨?_, ?_⟩
        · rw [hdf]
          dsimp only
          rw [hfo id hic, hm2flag id]
        · rw [hdc]
          simp [hci]
    · simp only [hr, if_false]
      left
      refine ⟨?_, ?_⟩
      · dsimp only
        apply flagM_updateCS_of
        · intro st; rfl
        · rw [mark_transferred_false m2 c (by simpa using hr)]
          exact hm2flag id
      · dsimp only
        exact tCount_append_non id _ _ (by simp [isTransferFor])

theorem amdMachineCore_spec (env : Env) (s1 : SysState) (c id : String) :
    EqEffect s1 (amdMachineCore env s1 c) id := by
  unfold amdMachineCore
  set m2 := updateCS s1.calls c (fun x =>
    { x with machine_detected := some true, status := "machine_detected",
             amd_result := some "machine",
             status_description := "Machine detected - dropping voicemail",
             status_color := "blue" }) with hm2
  have hm2flag : ∀ j, flagM m2 j = flagM s1.calls j := by
    intro j
    rw [hm2]
    apply flagM_updateCS
    intro st
    rfl
  by_cases hr : (mark_voicemail_dropped m2 c).2
  · simp only [hr, if_true]
    split_ifs <;> constructor <;>
      first
      | exact tCount_append_non id _ _ (by simp [isTransferFor])
      | ((repeat
            first
            | exact hm2flag id
            | exact fun st => rfl
            | apply flagM_mvd_of
            | apply flagM_append_transcript_of
            | apply flagM_updateCS_of)
         )
  · simp only [hr, if_false]
    refine ⟨?_, rfl⟩
    dsimp only
    apply flagM_mvd_of
    exact hm2flag id

theorem TransferEffect_pre {s s1 s' : SysState} {id : String}
    (hflag : flagM s1.calls id = flagM s.calls id)
    (hcmd : tCount id s1.commands = tCount id s.commands)
    (h : TransferEffect s1 s' id) : TransferEffect s s' id := by
  rcases h with ⟨a, b⟩ | ⟨a, b, c⟩
  · left; exact ⟨a.trans hflag, b.trans hcmd⟩
  · right
    refine ⟨?_, b, ?_⟩
    · rw [← hflag]; exact a
    · omega

theorem handleAmd_spec (env : Env) (s : SysState) (c result id : String) :
    TransferEffect s (handleAmd env s c result) id := by
  unfold handleAmd
  by_cases h0 : (lookupCS s.calls c).elim false (·.transferred) = true
  · rw [if_pos h0]
    left; exact ⟨rfl, rfl⟩
  · rw [if_neg h0]
    dsimp only
    have hs1f : ∀ j,
        flagM (updateCS s.calls c (fun x => { x with amd_received := some true })) j =
          flagM s.calls j := by
      intro j
      apply flagM_updateCS
      intro st
      rfl
    cases hl : lookupCS (updateCS s.calls c
        (fun x => { x with amd_received := some true })) c with
    | none =>
        simp only [hl]
        left; exact ⟨hs1f id, rfl⟩
    | some st =>
        simp only [hl]
        by_cases r1 : result = "human"
        · rw [if_pos r1]
          refine TransferEffect_pre ?_ ?_ (amdHumanCore_spec env _ c id)
          · exact hs1f id
          · rfl
        · rw [if_neg r1]
          by_cases r2 : result = "fax"
          · rw [if_pos r2]
            left
            refine ⟨?_, ?_⟩
            · dsimp only
              apply flagM_updateCS_of
              · intro st; rfl
              · exact hs1f id
            · dsimp only
              exact tCount_append_non id _ _ (by simp [isTransferFor])
          · rw [if_neg r2]
            by_cases r3 : result = "machine"
            · rw [if_pos r3]
              rcases amdMachineCore_spec env
                { s with timers := s.timers.erase c,
                         calls := updateCS s.calls c
                           (fun x => { x with amd_received := some true }) } c id
                with ⟨h1, h2⟩
              left
              exact ⟨h1.trans (hs1f id), h2⟩
            · rw [if_neg r3]
              by_cases r4 : result = "not_sure"
              · rw [if_pos r4]
                refine TransferEffect_pre ?_ ?_ (amdNotSureCore_spec env _ c id)
                · exact hs1f id
                · rfl
              · rw [if_neg r4]
                left
                refine ⟨?_, ?_⟩
                · dsimp only
                  apply flagM_updateCS_of
                  · intro st; rfl
                  · exact hs1f id
                · dsimp only
                  exact tCount_append_non id _ _ (by simp [isTransferFor])

theorem amd_fallback_spec (env : Env) (s : SysState) (c id : String) :
    TransferEffect s (amd_fallback env s c) id := by
  unfold amd_fallback
  cases hl : lookupCS s.calls c with
  | none =>
      simp only [hl]
      left; exact ⟨rfl, rfl⟩
  | some st =>
      simp only [hl]
      by_cases hg : ¬(st.amd_received = some true) ∧ st.status = "answered"
      · rw [if_pos hg]
        set m2 := updateCS s.calls c (fun x =>
          { x with machine_detected := some false, status := "human_detected",
                   amd_received := some true, amd_result := some "timeout",
                   status_description := "AMD detection timeout",
                   status_color := "yellow" }) with hm2
        have hm2flag : ∀ j, flagM m2 j = flagM s.calls j := by
          intro j
          rw [hm2]
          apply flagM_updateCS
          intro st
          rfl
        by_cases htn : (s.campaign.transfer_number).getD "" = ""
        · simp only [htn, if_true]
          left
          refine ⟨?_, ?_⟩
          · dsimp only
            apply flagM_updateCS_of
            · intro st; rfl
            · exact hm2flag id
          · dsimp only
            exact tCount_append_non id _ _ (by simp [isTransferFor])
        · simp only [htn, if_false]
          by_cases hr : (mark_transferred m2 c).2
          · simp only [hr, if_true]
            rcases mark_transferred_true m2 c hr with ⟨hf0, hf1, hfo⟩
            rcases doTransfer_spec env
              { s with calls := (mark_transferred m2 c).1 }
              c ((s.campaign.transfer_number).getD "") st.number id
              with ⟨hdf, hdc⟩
            by_cases hic : id = c
            · subst hic
              right
              refine ⟨?_, ?_, ?_⟩
              · rw [← hm2flag id]; exact hf0
              · rw [hdf]; exact hf1
              · rw [hdc]; simp
            · have hci : ¬(c = id) := fun h => hic h.symm
              left
              refine ⟨?_, ?_⟩
              · rw [hdf]
                dsimp only
                rw [hfo id hic, hm2flag id]
              · rw [hdc]
                simp [hci]
          · simp only [hr, if_false]
            left
            refine ⟨?_, ?_⟩
            · dsimp only
              apply flagM_updateCS_of
              · intro st; rfl
              · rw [mark_transferred_false m2 c (by simpa using hr)]
                exact hm2flag id
            · dsimp only
              exact tCount_append_non id _ _ (by simp [isTransferFor])
      · rw [if_neg hg]
        left; exact ⟨rfl, rfl⟩

theorem hangupUpdates_transferred (now : Int) (cause source : String)
    (st : CallState) :
    (hangupUpdates now cause source st).transferred = st.transferred := rfl

theorem handleInitiated_eq (now : Int) (s : SysState) (c f id : String) :
    EqEffect s (handleInitiated now s c f) id := by
  unfold handleInitiated
  refine ⟨?_, rfl⟩
  apply flagM_updateCS
  intro st
  rfl

theorem handleAnswered_eq (now : Int) (s : SysState) (c id : String) :
    EqEffect s (handleAnswered now s c) id := by
  unfold handleAnswered
  by_cases h0 : (lookupCS s.calls c).elim false (·.transferred) = true
  · rw [if_pos h0]
    refine ⟨?_, rfl⟩
    apply flagM_updateCS
    intro st
    rfl
  · rw [if_neg h0]
    refine ⟨?_, ?_⟩
    · apply flagM_updateCS
      intro st
      rfl
    · simp [tCount, List.filter_append, isTransferFor]

theorem handleGreeting_eq (env : Env) (s : SysState) (c beep id : String) :
    EqEffect s (handleGreeting env s c beep) id := by
  unfold handleGreeting
  cases hl : lookupCS s.calls c with
  | none => exact ⟨rfl, rfl⟩
  | some st =>
      by_cases hd : st.voicemail_dropped = true
      · simp only [hd, if_true]
        split_ifs <;>
          exact ⟨rfl, by simp [tCount, List.filter_append, isTransferFor]⟩
      · simp only [hd]
        exact ⟨rfl, rfl⟩

theorem handlePlayback_eq (s : SysState) (c id : String) :
    EqEffect s (handlePlayback s c) id := by
  unfold handlePlayback
  cases hl : lookupCS s.calls c with
  | none => exact ⟨rfl, rfl⟩
  | some st =>
      by_cases hd : st.voicemail_dropped = true
      · simp only [hd, if_true]
        refine ⟨?_, ?_⟩
        · apply flagM_updateCS
          intro st
          rfl
        · simp [tCount, List.filter_append, isTransferFor]
      · simp only [hd]
        exact ⟨rfl, rfl⟩

theorem handleTranscription_eq (s : SysState) (e : Ev) (id : String) :
    EqEffect s (handleTranscription s e) id := by
  unfold handleTranscription
  by_cases ht : e.transcript_text = ""
  · rw [if_pos ht]
    exact ⟨rfl, rfl⟩
  · rw [if_neg ht]
    refine ⟨?_, rfl⟩
    apply flagM_append_transcript_of
    rfl

theorem handleHangup_eq (now : Int) (s : SysState) (c cause source id : String) :
    EqEffect s (handleHangup now s c cause source) id := by
  unfold handleHangup
  cases hl : lookupCS s.calls c with
  | none =>
      simp only [hl]
      exact ⟨rfl, rfl⟩
  | some st =>
      simp only [hl]
      refine ⟨?_, rfl⟩
      exact flagM_updateCS_const s.calls c id st _ hl
        (hangupUpdates_transferred now cause source st)

theorem flagM_map_preserve (m : CallMap)
    (F : String × CallState → String × CallState)
    (hk : ∀ p, (F p).1 = p.1)
    (ht : ∀ p, ((F p).2).transferred = p.2.transferred) (id : String) :
    flagM (m.map F) id = flagM m id := by
  induction m with
  | nil => rfl
  | cons p rest ih =>
      simp only [List.map_cons, flagM, lookupCS] at *
      rw [hk p]
      by_cases h : p.1 = id
      · simp [h, ht p]
      · simp [h, ih]

theorem handleLegAnswered_eq (s : SysState) (id : String) :
    EqEffect s (handleLegAnswered s) id := by
  unfold handleLegAnswered
  refine ⟨?_, rfl⟩
  apply flagM_map_preserve
  · intro p
    by_cases hc : p.2.transferred && is_active_transfer s.gate p.1 <;> simp [hc]
  · intro p
    by_cases hc : p.2.transferred && is_active_transfer s.gate p.1 <;> simp [hc]

theorem legHangupFold_eq (l : List (String × CallState)) (s : SysState)
    (id : String) :
    flagM (legHangupFold l s).calls id = flagM s.calls id ∧
    (legHangupFold l s).commands = s.commands := by
  induction l generalizing s with
  | nil => exact ⟨rfl, rfl⟩
  | cons p rest ih =>
      unfold legHangupFold
      by_cases hc : (p.2.transferred && is_active_transfer s.gate p.1) = true
      · rw [if_pos hc]
        rcases ih { s with
          calls := updateCS s.calls p.1 (fun st =>
            { st with status := "transferred",
                      status_description := "Transfer call ended",
                      status_color := "green" }),
          gate := resume_after_transfer s.gate p.1,
          registry := (signal_call_complete s.registry p.1).1 } with ⟨h1, h2⟩
        refine ⟨?_, h2⟩
        rw [h1]
        dsimp only
        apply flagM_updateCS
        intro st
        rfl
      · rw [if_neg hc]
        exact ih s

theorem handleLegHangup_eq (s : SysState) (id : String) :
    EqEffect s (handleLegHangup s) id := by
  unfold handleLegHangup EqEffect
  rcases legHangupFold_eq s.calls s id with ⟨h1, h2⟩
  exact ⟨h1, by rw [h2]⟩

theorem webhookDispatch_effect (env : Env) (now : Int) (s0 : SysState)
    (e : Ev) (id : String) :
    TransferEffect s0 (webhookDispatch env now s0 e) id := by
  unfold webhookDispatch
  dsimp only
  split_ifs with h1 h2 h3 h4 h5 h6 h7 h8
  · exact Or.inl (handleInitiated_eq now s0 _ _ id)
  · exact Or.inl (handleAnswered_eq now s0 _ id)
  · exact handleAmd_spec env s0 _ _ id
  · exact Or.inl (handleGreeting_eq env s0 _ _ id)
  · exact Or.inl (handlePlayback_eq s0 _ id)
  · exact Or.inl (handleTranscription_eq s0 e id)
  · exact Or.inl ⟨rfl, rfl⟩
  · exact Or.inl (handleHangup_eq now s0 _ _ _ id)
  · exact Or.inl ⟨rfl, rfl⟩

theorem webhookStep_effect (env : Env) (now : Int) (s : SysState) (e : Ev)
    (id : String) : TransferEffect s (webhookStep env now s e) id := by
  unfold webhookStep
  dsimp only
  by_cases hleg : ((lookupCS s.calls e.call_control_id).isNone ∧
      ¬(e.call_control_id = "") ∧ ¬(pyOr2 e.toNum e.fromNum = "")) ∧
      transferLegDetect ((s.campaign.transfer_number).getD "") e.toNum = true
  · rw [if_pos hleg]
    split_ifs
    · exact Or.inl (handleLegAnswered_eq s id)
    · exact Or.inl (handleLegHangup_eq s id)
    · exact Or.inl ⟨rfl, rfl⟩
  · rw [if_neg hleg]
    by_cases hcc : ((lookupCS s.calls e.call_control_id).isNone ∧
        ¬(e.call_control_id = "") ∧ ¬(pyOr2 e.toNum e.fromNum = "")) ∧
        ¬(transferLegDetect ((s.campaign.transfer_number).getD "") e.toNum = true)
    · rw [if_pos hcc]
      have hnone : lookupCS s.calls e.call_control_id = none :=
        Option.isNone_iff_eq_none.mp hcc.1.1
      have heff := webhookDispatch_effect env now
        { s with calls := create_call_state env.telnyxFrom now s.calls e.call_control_id (pyOr2 e.toNum e.fromNum) }
        e id
      refine TransferEffect_pre ?_ ?_ heff
      · dsimp only
        rw [flagM_create]
        by_cases hj : id = e.call_control_id
        · rw [if_pos hj]
          subst hj
          simp [flagM, hnone]
        · rw [if_neg hj]
      · rfl
    · rw [if_neg hcc]
      exact webhookDispatch_effect env now s e id

/-- Any step of the system (webhook delivery or timer expiry) preserves
the transfer-count invariant. -/
theorem stepRun_inv (env : Env) (s : SysState) (st : Step) (id : String) :
    TransferInv id s → TransferInv id (stepRun env s st) := by
  cases st with
  | web now e => exact TransferInv_of_effect (webhookStep_effect env now s e id)
  | fire c => exact TransferInv_of_effect (amd_fallback_spec env s c id)

theorem runSteps_inv (env : Env) (s : SysState) (steps : List Step)
    (id : String) : TransferInv id s → TransferInv id (runSteps env s steps) := by
  induction steps generalizing s with
  | nil => exact fun h => h
  | cons st rest ih =>
      intro h
      exact ih (stepRun env s st) (stepRun_inv env s st id h)

theorem webhookStep_known (env : Env) (now : Int) (s : SysState) (e : Ev)
    (hs : (lookupCS s.calls e.call_control_id).isSome = true) :
    webhookStep env now s e = webhookDispatch env now s e := by
  unfold webhookStep
  dsimp only
  have hne : ¬((lookupCS s.calls e.call_control_id).isNone = true ∧
      ¬(e.call_control_id = "") ∧ ¬(pyOr2 e.toNum e.fromNum = "")) := by
    intro h
    rw [Option.isNone_iff_eq_none] at h
    rw [h.1] at hs
    simp at hs
  rw [if_neg (fun h => hne h.1), if_neg (fun h => hne h.1)]

theorem dispatch_amd (env : Env) (now : Int) (s : SysState) (e : Ev)
    (hev : e.event_type = "call.machine.detection.ended") :
    webhookDispatch env now s e = handleAmd env s e.call_control_id e.result := by
  unfold webhookDispatch
  rw [hev]
  rw [if_neg (by decide), if_neg (by decide), if_pos rfl]

theorem dispatch_hangup (env : Env) (now : Int) (s : SysState) (e : Ev)
    (hev : e.event_type = "call.hangup") :
    webhookDispatch env now s e =
      handleHangup now s e.call_control_id e.hangup_cause e.hangup_source := by
  unfold webhookDispatch
  rw [hev]
  rw [if_neg (by decide), if_neg (by decide), if_neg (by decide),
      if_neg (by decide), if_neg (by decide), if_neg (by decide),
      if_neg (by decide), if_pos rfl]

theorem dispatch_transcription (env : Env) (now : Int) (s : SysState) (e : Ev)
    (hev : e.event_type = "call.transcription") :
    webhookDispatch env now s e = handleTranscription s e := by
  unfold webhookDispatch
  rw [hev]
  rw [if_neg (by decide), if_neg (by decide), if_neg (by decide),
      if_neg (by decide), if_neg (by decide), if_pos rfl]

theorem lookupCS_updateCS_some (m : CallMap) (c : String) (st : CallState)
    (f : CallState → CallState) (h : lookupCS m c = some st) :
    lookupCS (updateCS m c f) c = some (f st) := by
  rw [lookupCS_updateCS_self, h]
  rfl

theorem mark_transferred_run (m : CallMap) (c : String) (st : CallState)
    (h : lookupCS m c = some st) (ht : st.transferred = false) :
    mark_transferred m c =
      (updateCS m c (fun s => { s with transferred := true, status := "transferred" }),
       true) := by
  unfold mark_transferred
  rw [h]
  simp [ht]

theorem mark_voicemail_dropped_run (m : CallMap) (c : String) (st : CallState)
    (h : lookupCS m c = some st) (hd : st.voicemail_dropped = false) :
    mark_voicemail_dropped m c =
      (updateCS m c (fun s => { s with voicemail_dropped := true,
                                       playback_started := true,
                                       status := "voicemail_playing" }),
       true) := by
  unfold mark_voicemail_dropped
  rw [h]
  simp [hd]

theorem append_transcript_run (m : CallMap) (c t tr : String) (fin : Bool)
    (st : CallState) (h : lookupCS m c = some st) :
    (append_transcript m c t tr fin).1 =
      updateCS m c (fun s => { s with transcript :=
        s.transcript ++ [⟨t, tr, fin⟩] }) := by
  unfold append_transcript
  rw [h]

theorem pause_for_transfer_mem (g : Gate) (c : String) :
    is_active_transfer (pause_for_transfer g c) c = true := by
  unfold pause_for_transfer is_active_transfer
  by_cases h : g.contains c = true
  · rw [if_pos h]
    exact h
  · rw [if_neg h]
    simp

theorem handleAmd_human (env : Env) (s : SysState) (c : String) (st : CallState)
    (hs : lookupCS s.calls c = some st) (htr : st.transferred = false) :
    handleAmd env s c "human" =
      amdHumanCore env
        { s with timers := s.timers.erase c,
                 calls := updateCS s.calls c
                   (fun x => { x with amd_received := some true }) } c := by
  unfold handleAmd
  have h0 : ¬((lookupCS s.calls c).elim false (·.transferred) = true) := by
    rw [hs]
    simp [htr]
  rw [if_neg h0]
  dsimp only
  rw [lookupCS_updateCS_some s.calls c st _ hs]
  rfl

theorem handleAmd_machine (env : Env) (s : SysState) (c : String) (st : CallState)
    (hs : lookupCS s.calls c = some st) (htr : st.transferred = false) :
    handleAmd env s c "machine" =
      amdMachineCore env
        { s with timers := s.timers.erase c,
                 calls := updateCS s.calls c
                   (fun x => { x with amd_received := some true }) } c := by
  unfold handleAmd
  have h0 : ¬((lookupCS s.calls c).elim false (·.transferred) = true) := by
    rw [hs]
    simp [htr]
  rw [if_neg h0]
  dsimp only
  rw [lookupCS_updateCS_some s.calls c st _ hs]
  rw [if_neg (by decide), if_neg (by decide), if_pos rfl]

theorem amdHumanCore_behavior (env : Env) (s1 : SysState) (c : String)
    (st1 : CallState) (hs : lookupCS s1.calls c = some st1)
    (htr : st1.transferred = false) :
    (¬((s1.campaign.transfer_number).getD "" = "") →
       ((transfer_call env c ((s1.campaign.transfer_number).getD "") st1.number).2 = true →
          (amdHumanCore env s1 c).commands = s1.commands ++
            [Command.transfer c (normalize_number ((s1.campaign.transfer_number).getD ""))
              (transfer_call env c ((s1.campaign.transfer_number).getD "") st1.number).1] ∧
          is_active_transfer (amdHumanCore env s1 c).gate c = true ∧
          (lookupCS (amdHumanCore env s1 c).calls c).map (·.status) = some "transferred") ∧
       ((transfer_call env c ((s1.campaign.transfer_number).getD "") st1.number).2 = false →
          (amdHumanCore env s1 c).commands = s1.commands ++
            [Command.transfer c (normalize_number ((s1.campaign.transfer_number).getD ""))
              (transfer_call env c ((s1.campaign.transfer_number).getD "") st1.number).1,
             Command.hangup c] ∧
          (lookupCS (amdHumanCore env s1 c).calls c).map (·.status) = some "transfer_failed")) ∧
    ((s1.campaign.transfer_number).getD "" = "" →
       (amdHumanCore env s1 c).commands = s1.commands ++ [Command.hangup c] ∧
       (lookupCS (amdHumanCore env s1 c).calls c).map (·.status) = some "human_no_transfer") := by
  by_cases htn : (s1.campaign.transfer_number).getD "" = ""
  · refine ⟨fun h => absurd htn h, fun _ => ?_⟩
    have hrun : amdHumanCore env s1 c =
        { s1 with
          calls := updateCS (updateCS s1.calls c (fun x =>
            { x with machine_detected := some false, status := "human_detected",
                     amd_result := some "human",
                     status_description := "Human detected",
                     status_color := "blue" })) c (fun x =>
            { x with status := "human_no_transfer",
                     status_description := "Human answered - no transfer number",
                     status_color := "yellow" }),
          commands := s1.commands ++ [Command.hangup c] } := by
      unfold amdHumanCore
      simp only [htn, if_true]
    rw [hrun]
    refine ⟨rfl, ?_⟩
    rw [lookupCS_updateCS_some _ c _ _
      (lookupCS_updateCS_some s1.calls c st1 _ hs)]
    rfl
  · refine ⟨fun _ => ?_, fun h => absurd h htn⟩
    have hm2 : lookupCS (updateCS s1.calls c (fun x =>
        { x with machine_detected := some false, status := "human_detected",
                 amd_result := some "human",
                 status_description := "Human detected",
                 status_color := "blue" })) c =
        some { st1 with machine_detected := some false, status := "human_detected",
                        amd_result := some "human",
                        status_description := "Human detected",
                        status_color := "blue" } :=
      lookupCS_updateCS_some s1.calls c st1 _ hs
    have hrun : amdHumanCore env s1 c =
        doTransfer env
          { s1 with
            calls := updateCS (updateCS s1.calls c (fun x =>
              { x with machine_detected := some false, status := "human_detected",
                       amd_result := some "human",
                       status_description := "Human detected",
                       status_color := "blue" })) c (fun x =>
              { x with transferred := true, status := "transferred" }) }
          c ((s1.campaign.transfer_number).getD "") st1.number := by
      unfold amdHumanCore
      simp only [htn, if_false]
      rw [mark_transferred_run _ c _ hm2 htr, hm2]
      rfl
    rw [hrun]
    unfold doTransfer
    dsimp only
    by_cases hok : (transfer_call env c ((s1.campaign.transfer_number).getD "") st1.number).2 = true
    · rw [if_pos hok]
      refine ⟨fun _ => ⟨rfl, ?_, ?_⟩, fun hbad => absurd hok (by simp [hbad])⟩
      · exact pause_for_transfer_mem s1.gate c
      · rw [lookupCS_updateCS_some _ c _ _
          (lookupCS_updateCS_some _ c _ _ (lookupCS_updateCS_some s1.calls c st1 _ hs))]
        rfl
    · rw [if_neg hok]
      rw [Bool.not_eq_true] at hok
      refine ⟨fun hbad => absurd hbad (by simp [hok]), fun _ => ⟨by simp, ?_⟩⟩
      rw [lookupCS_updateCS_some _ c _ _
        (lookupCS_updateCS_some _ c _ _ (lookupCS_updateCS_some s1.calls c st1 _ hs))]
      rfl

theorem amdMachineCore_behavior (env : Env) (s1 : SysState) (c : String)
    (st1 : CallState) (hs : lookupCS s1.calls c = some st1)
    (hvd : st1.voicemail_dropped = false)
    (hau : ¬(pyOrS (if st1.number = "" then none else env.personalizedUrl st1.number)
        (pyOrS s1.campaign.audio_url (get_voicemail_url env.vmSettings)) = "")) :
    (amdMachineCore env s1 c).commands = s1.commands ++
      [Command.play c (pyOrS (if st1.number = "" then none else env.personalizedUrl st1.number)
        (pyOrS s1.campaign.audio_url (get_voicemail_url env.vmSettings)))] ∧
    (lookupCS (amdMachineCore env s1 c).calls c).map (·.voicemail_dropped) =
      some true := by
  simp only [amdMachineCore]
  have hm2 : lookupCS (updateCS s1.calls c (fun x =>
      { x with machine_detected := some true, status := "machine_detected",
               amd_result := some "machine",
               status_description := "Machine detected - dropping voicemail",
               status_color := "blue" })) c =
      some { st1 with machine_detected := some true, status := "machine_detected",
                      amd_result := some "machine",
                      status_description := "Machine detected - dropping voicemail",
                      status_color := "blue" } :=
    lookupCS_updateCS_some s1.calls c st1 _ hs
  rw [mark_voicemail_dropped_run _ c _ hm2 hvd]
  simp only [eq_self_iff_true, if_true]
  have hl4 : lookupCS (updateCS (updateCS (updateCS s1.calls c (fun x =>
      { x with machine_detected := some true, status := "machine_detected",
               amd_result := some "machine",
               status_description := "Machine detected - dropping voicemail",
               status_color := "blue" })) c
      (fun s =>
        { s with voicemail_dropped := true, playback_started := true,
                 status := "voicemail_playing" })) c (fun x =>
      { x with status_description := "Dropping voicemail...",
               status_color := "blue" })) c =
      some { st1 with machine_detected := some true, status := "voicemail_playing",
                      amd_result := some "machine",
                      status_description := "Dropping voicemail...",
                      status_color := "blue",
                      voicemail_dropped := true, playback_started := true } := by
    rw [lookupCS_updateCS_some _ c _ _
      (lookupCS_updateCS_some _ c _ _ hm2)]
  rw [hl4]
  simp only [Option.map_some', Option.getD_some]
  by_cases hp : truthyS (if st1.number = "" then none
      else env.personalizedUrl st1.number) = true
  · rw [if_pos hp, if_neg hau]
    refine ⟨rfl, ?_⟩
    have hl5 : lookupCS (updateCS (updateCS (updateCS (updateCS s1.calls c (fun x =>
        { x with machine_detected := some true, status := "machine_detected",
                 amd_result := some "machine",
                 status_description := "Machine detected - dropping voicemail",
                 status_color := "blue" })) c
        (fun s =>
          { s with voicemail_dropped := true, playback_started := true,
                   status := "voicemail_playing" })) c (fun x =>
        { x with status_description := "Dropping voicemail...",
                 status_color := "blue" })) c (fun x =>
        { x with status_description := "Dropping personalized voicemail...",
                 status_color := "blue" })) c =
        some { st1 with machine_detected := some true, status := "voicemail_playing",
                        amd_result := some "machine",
                        status_description := "Dropping personalized voicemail...",
                        status_color := "blue",
                        voicemail_dropped := true, playback_started := true } := by
      rw [lookupCS_updateCS_some _ c _ _ hl4]
    dsimp only
    rw [append_transcript_run _ c _ _ _ _ hl5,
        lookupCS_updateCS_some _ c _ _ hl5]
    rfl
  · rw [if_neg hp, if_neg hau]
    refine ⟨rfl, ?_⟩
    dsimp only
    rw [append_transcript_run _ c _ _ _ _ hl4,
        lookupCS_updateCS_some _ c _ _ hl4]
    rfl

theorem get_voicemail_url_reachable_ne (vs : VmSettings)
    (h : ReachableVmSettings vs) : ¬(get_voicemail_url vs = "") := by
  induction h with
  | init => decide
  | save url prev h0 h1 h2 ih => exact h1

theorem pyOrS_ne_empty (a : Option String) (b : String) (hb : ¬(b = "")) :
    ¬(pyOrS a b = "") := by
  unfold pyOrS
  cases a with
  | none => exact hb
  | some s =>
      dsimp only
      by_cases hs : s = ""
      · rw [if_pos hs]
        exact hb
      · rw [if_neg hs]
        exact hs

theorem amd_fallback_run (env : Env) (s : SysState) (c : String)
    (st : CallState) (hs : lookupCS s.calls c = some st)
    (hamd : ¬(st.amd_received = some true)) (hst : st.status = "answered")
    (htn : ¬((s.campaign.transfer_number).getD "" = ""))
    (htr : st.transferred = false) :
    tCount c (amd_fallback env s c).commands = tCount c s.commands + 1 ∧
    (lookupCS (amd_fallback env s c).calls c).map (·.amd_result) =
      some (some "timeout") ∧
    (amd_fallback env s c).timers = s.timers.erase c := by
  have hm2 : lookupCS (updateCS s.calls c (fun x =>
      { x with machine_detected := some false, status := "human_detected",
               amd_received := some true, amd_result := some "timeout",
               status_description := "AMD detection timeout",
               status_color := "yellow" })) c =
      some { st with machine_detected := some false, status := "human_detected",
                     amd_received := some true, amd_result := some "timeout",
                     status_description := "AMD detection timeout",
                     status_color := "yellow" } :=
    lookupCS_updateCS_some s.calls c st _ hs
  have hg : ¬(st.amd_received = some true) ∧ st.status = "answered" :=
    ⟨hamd, hst⟩
  simp only [amd_fallback]
  rw [hs]
  try dsimp only
  rw [if_pos hg, if_neg htn]
  rw [mark_transferred_run _ c _ hm2 htr]
  simp only [eq_self_iff_true, if_true]
  unfold doTransfer
  try dsimp only
  by_cases hok : (transfer_call env c ((s.campaign.transfer_number).getD "") st.number).2 = true
  · rw [if_pos hok]
    refine ⟨?_, ?_, rfl⟩
    · simp [tCount_append, tCount, isTransferFor]
    · rw [lookupCS_updateCS_some _ c _ _
        (lookupCS_updateCS_some _ c _ _ hm2)]
      rfl
  · rw [if_neg hok]
    refine ⟨?_, ?_, rfl⟩
    · simp [tCount_append, tCount, isTransferFor]
    · rw [lookupCS_updateCS_some _ c _ _
        (lookupCS_updateCS_some _ c _ _ hm2)]
      rfl

/-- C10: for every input, `set_campaign` stores `batch_size` clamped to
1..50 and `dial_delay` clamped to 1..10, sets `active` and clears
`stop_requested`, resets the dialed count to 0, and clears all live call
state. -/
theorem C10_set_campaign (audio_url transfer_number : Option String)
    (numbers : List String) (dial_mode : String)
    (batch_size dial_delay : Int) :
    (set_campaign audio_url transfer_number numbers dial_mode batch_size
        dial_delay).1.batch_size = max 1 (min batch_size 50) ∧
    1 ≤ max 1 (min batch_size 50) ∧ max 1 (min batch_size 50) ≤ 50 ∧
    (set_campaign audio_url transfer_number numbers dial_mode batch_size
        dial_delay).1.dial_delay = some (max 1 (min 10 dial_delay)) ∧
    1 ≤ max 1 (min 10 dial_delay) ∧ max 1 (min 10 dial_delay) ≤ 10 ∧
    (set_campaign audio_url transfer_number numbers dial_mode batch_size
        dial_delay).1.active = true ∧
    (set_campaign audio_url transfer_number numbers dial_mode batch_size
        dial_delay).1.stop_requested = false ∧
    (set_campaign audio_url transfer_number numbers dial_mode batch_size
        dial_delay).1.dialed_count = 0 ∧
    ∀ id, lookupCS (set_campaign audio_url transfer_number numbers dial_mode
        batch_size dial_delay).2 id = none := by
  refine ⟨rfl, ?_, ?_, rfl, ?_, ?_, rfl, rfl, rfl, fun id => rfl⟩
  · exact le_max_left 1 _
  · exact max_le (by omega) (min_le_right _ _)
  · exact le_max_left 1 _
  · exact max_le (by omega) (by omega)

/-- C1 counterexample: after a fresh record's `mark_voicemail_dropped`
succeeds, `mark_transferred` for the same id still succeeds, and both
flags end up true - the claimed mutual exclusion does not hold. -/
theorem C1_counterexample :
    (mark_voicemail_dropped
      (create_call_state "+15550000000" 0 [] "abc" "+15551234567") "abc").2 = true ∧
    (mark_transferred
      (mark_voicemail_dropped
        (create_call_state "+15550000000" 0 [] "abc" "+15551234567") "abc").1
      "abc").2 = true ∧
    (lookupCS
      (mark_transferred
        (mark_voicemail_dropped
          (create_call_state "+15550000000" 0 [] "abc" "+15551234567") "abc").1
        "abc").1 "abc").map
      (fun st => (st.transferred, st.voicemail_dropped)) =
      some (true, true) := by
  refine ⟨rfl, rfl, rfl⟩

/-- A sequence of CAS attempts on one id, as interleaved by concurrent
event deliveries (`storage.lock` serializes them). -/
inductive MOp where
  | mt
  | mvd
deriving DecidableEq, Repr

/-- Number of successful `mark_transferred` calls over a CAS-op
sequence. -/
def countMtSucc : List MOp → CallMap → String → Nat
  | [], _, _ => 0
  | MOp.mt :: rest, m, id =>
      (if (mark_transferred m id).2 then 1 else 0) +
        countMtSucc rest (mark_transferred m id).1 id
  | MOp.mvd :: rest, m, id =>
      countMtSucc rest (mark_voicemail_dropped m id).1 id

/-- Number of successful `mark_voicemail_dropped` calls over a CAS-op
sequence. -/
def countMvdSucc : List MOp → CallMap → String → Nat
  | [], _, _ => 0
  | MOp.mt :: rest, m, id =>
      countMvdSucc rest (mark_transferred m id).1 id
  | MOp.mvd :: rest, m, id =>
      (if (mark_voicemail_dropped m id).2 then 1 else 0) +
        countMvdSucc rest (mark_voicemail_dropped m id).1 id

/-- The `voicemail_dropped` flag as read off a raw call map. -/
def vmFlagM (m : CallMap) (id : String) : Bool :=
  (lookupCS m id).elim false (·.voicemail_dropped)

theorem vmFlagM_mt (m : CallMap) (c id : String) :
    vmFlagM (mark_transferred m c).1 id = vmFlagM m id := by
  unfold mark_transferred
  cases hl : lookupCS m c with
  | none => simp
  | some st =>
      by_cases ht : st.transferred
      · simp [ht]
      · simp only [ht]
        by_cases h : id = c
        · subst h
          simp [vmFlagM, lookupCS_updateCS_self, hl]
        · simp [vmFlagM, lookupCS_updateCS_ne _ _ _ _ h]

theorem mark_transferred_flag_true (m : CallMap) (c : String)
    (h : flagM m c = true) :
    (mark_transferred m c).2 = false ∧ (mark_transferred m c).1 = m := by
  unfold mark_transferred
  unfold flagM at h
  cases hl : lookupCS m c with
  | none => simp [hl] at h
  | some st =>
      rw [hl] at h
      simp only [Option.elim] at h
      simp [hl, h]

theorem countMtSucc_flagged (ops : List MOp) (m : CallMap) (id : String)
    (h : flagM m id = true) : countMtSucc ops m id = 0 := by
  induction ops generalizing m with
  | nil => rfl
  | cons op rest ih =>
      cases op with
      | mt =>
          rcases mark_transferred_flag_true m id h with ⟨h1, h2⟩
          simp only [countMtSucc, h1, if_false, h2]
          simpa using ih m h
      | mvd =>
          simp only [countMtSucc]
          apply ih
          rw [flagM_mvd]
          exact h

theorem mark_mvd_flag_true (m : CallMap) (c : String)
    (h : vmFlagM m c = true) :
    (mark_voicemail_dropped m c).2 = false ∧
      (mark_voicemail_dropped m c).1 = m := by
  unfold mark_voicemail_dropped
  unfold vmFlagM at h
  cases hl : lookupCS m c with
  | none => simp [hl] at h
  | some st =>
      rw [hl] at h
      simp only [Option.elim] at h
      simp [hl, h]

theorem countMvdSucc_flagged (ops : List MOp) (m : CallMap) (id : String)
    (h : vmFlagM m id = true) : countMvdSucc ops m id = 0 := by
  induction ops generalizing m with
  | nil => rfl
  | cons op rest ih =>
      cases op with
      | mvd =>
          rcases mark_mvd_flag_true m id h with ⟨h1, h2⟩
          simp only [countMvdSucc, h1, if_false, h2]
          simpa using ih m h
      | mt =>
          simp only [countMvdSucc]
          apply ih
          rw [vmFlagM_mt]
          exact h

theorem mark_mvd_true_flag (m : CallMap) (c : String)
    (h : (mark_voicemail_dropped m c).2 = true) :
    vmFlagM (mark_voicemail_dropped m c).1 c = true := by
  unfold mark_voicemail_dropped at h ⊢
  cases hl : lookupCS m c with
  | none => simp [hl] at h
  | some st =>
      simp only [hl] at h ⊢
      by_cases hd : st.voicemail_dropped
      · simp [hd] at h
      · simp only [hd]
        simp [vmFlagM, lookupCS_updateCS_self, hl]

/-- C1 (amended): each of the two flags individually transitions
false→true at most once - over any interleaving of CAS attempts on one
id, `mark_transferred` succeeds at most once and `mark_voicemail_dropped`
succeeds at most once.  (Mutual exclusion between the two flags does NOT
hold; see the counterexample.) -/
theorem C1_flags_cas_once (ops : List MOp) (m : CallMap) (id : String) :
    countMtSucc ops m id ≤ 1 ∧ countMvdSucc ops m id ≤ 1 := by
  induction ops generalizing m with
  | nil => exact ⟨Nat.zero_le 1, Nat.zero_le 1⟩
  | cons op rest ih =>
      cases op with
      | mt =>
          constructor
          · by_cases hr : (mark_transferred m id).2 = true
            · have hflag : flagM (mark_transferred m id).1 id = true :=
                (mark_transferred_true m id hr).2.1
              simp only [countMtSucc, hr, if_true,
                countMtSucc_flagged rest _ id hflag]
              omega
            · rw [Bool.not_eq_true] at hr
              simp only [countMtSucc, hr, if_false]
              simpa using (ih (mark_transferred m id).1).1
          · simpa [countMvdSucc] using (ih (mark_transferred m id).1).2
      | mvd =>
          constructor
          · simpa [countMtSucc] using (ih (mark_voicemail_dropped m id).1).1
          · by_cases hr : (mark_voicemail_dropped m id).2 = true
            · have hflag := mark_mvd_true_flag m id hr
              simp only [countMvdSucc, hr, if_true,
                countMvdSucc_flagged rest _ id hflag]
              omega
            · rw [Bool.not_eq_true] at hr
              simp only [countMvdSucc, hr, if_false]
              simpa using (ih (mark_voicemail_dropped m id).1).2

/-- C4 counterexample: `create_call_state` is not idempotent for an
existing id - a second call overwrites the record (here, resetting a
status that had moved on to "ringing"). -/
theorem C4_counterexample :
    lookupCS
      (create_call_state "+15550000000" 100
        (updateCS (create_call_state "+15550000000" 100 [] "abc" "+15551234567")
          "abc" (fun st => { st with status := "ringing" }))
        "abc" "+15551234567") "abc" ≠
      lookupCS
        (updateCS (create_call_state "+15550000000" 100 [] "abc" "+15551234567")
          "abc" (fun st => { st with status := "ringing" })) "abc" := by
  decide

/-- C4 (amended): `create_call_state(id, number)` unconditionally stores a
fresh record in status "initiated" with `ring_start = now` - also when the
id is already present, overwriting the existing record rather than leaving
it unchanged; records of other ids are untouched. -/
theorem C4_create_overwrites (envf : String) (now : Int) (m : CallMap)
    (id number k : String) :
    lookupCS (create_call_state envf now m id number) id =
      some (initialRecord envf now number) ∧
    (initialRecord envf now number).status = "initiated" ∧
    (initialRecord envf now number).ring_start = some now ∧
    (¬(k = id) →
      lookupCS (create_call_state envf now m id number) k = lookupCS m k) := by
  exact ⟨lookupCS_insertCS_self m id _, rfl, rfl,
    fun hk => lookupCS_insertCS_ne m id k _ hk⟩

theorem C4_create_overwrites_witness :
    lookupCS (create_call_state "+1" 5 [] "a" "+2") "b" =
      lookupCS ([] : CallMap) "b" :=
  (C4_create_overwrites "+1" 5 [] "a" "+2" "b").2.2.2 (by decide)

/-- `increment` events in a dial trace (the final dialed-count). -/
def countIncr (l : List DialEvent) : Nat :=
  (l.filter (fun e => match e with
    | DialEvent.increment => true
    | _ => false)).length

theorem placeSingle_no_dnc (env : DialEnv) (number n : String)
    (h : DialEvent.placeCall n ∈ placeSingle env number) :
    is_dnc env.dnc n = false := by
  unfold placeSingle at h
  by_cases hd : is_dnc env.dnc number = true
  · simp [hd] at h
  · rw [Bool.not_eq_true] at hd
    rw [if_neg (by simp [hd])] at h
    cases hres : env.callResult number with
    | some id =>
        rw [hres] at h
        simp at h
        rw [h]
        exact hd
    | none =>
        rw [hres] at h
        simp at h
        rw [h]
        exact hd

theorem placeSingle_no_incr (env : DialEnv) (number : String) :
    countIncr (placeSingle env number) = 0 := by
  unfold placeSingle
  by_cases hd : is_dnc env.dnc number = true
  · simp [hd, countIncr]
  · rw [if_neg hd]
    cases hres : env.callResult number <;> simp [countIncr]

/-- C7: in both pacing modes, a DNC-listed number is never passed to
`make_call`, and the dialed-count still advances by one for it - the
sequential loop's DNC branch emits exactly one increment and no
`placeCall`, and each simultaneous batch emits exactly one increment per
(non-empty) member whether or not it is DNC-listed, while its thread body
skips the call for DNC members. -/
theorem C7_dnc_skip :
    (∀ (env : DialEnv) (k : Nat) (ns : List String) (n : String),
        DialEvent.placeCall n ∈ dialSeqGo env k ns →
          is_dnc env.dnc n = false) ∧
    (∀ (env : DialEnv) (k : Nat) (n : String) (rest : List String),
        env.contAt k = true → ¬(pyStrip n = "") →
        is_dnc env.dnc (pyStrip n) = true →
        dialSeqGo env k (n :: rest) =
          DialEvent.increment :: dialSeqGo env (k + 1) rest) ∧
    (∀ (env : DialEnv) (bs fuel k : Nat) (ns : List String) (n : String),
        DialEvent.placeCall n ∈ dialSimGo env bs fuel k ns →
          is_dnc env.dnc n = false) ∧
    (∀ (env : DialEnv) (bs fuel k : Nat) (n : String) (ns : List String),
        env.contAt k = true →
        ¬(((((n :: ns).take bs).map pyStrip).filter
            (fun x => !(x = ""))).isEmpty = true) →
        countIncr (dialSimGo env bs (fuel + 1) k (n :: ns)) =
          ((((n :: ns).take bs).map pyStrip).filter
            (fun x => !(x = ""))).length +
          countIncr (dialSimGo env bs fuel (k + 1) ((n :: ns).drop bs))) := by
  refine ⟨?_, ?_, ?_, ?_⟩
  · intro env k ns
    induction ns generalizing k with
    | nil => intro n h; simp [dialSeqGo] at h
    | cons x rest ih =>
        intro n h
        unfold dialSeqGo at h
        by_cases hc : env.contAt k = true
        · rw [if_pos hc] at h
          by_cases he : pyStrip x = ""
          · rw [if_pos he] at h
            exact ih (k + 1) n h
          · rw [if_neg he] at h
            by_cases hd : is_dnc env.dnc (pyStrip x) = true
            · rw [if_pos hd] at h
              rcases List.mem_cons.mp h with h | h
              · exact absurd h (by simp)
              · exact ih (k + 1) n h
            · rw [if_neg hd] at h
              rw [Bool.not_eq_true] at hd
              cases hres : env.callResult (pyStrip x) with
              | some cid =>
                  rw [hres] at h
                  rcases List.mem_cons.mp h with h | h
                  · injection h with h1
                    rw [h1]
                    exact hd
                  · rcases List.mem_cons.mp h with h | h
                    · exact absurd h (by simp)
                    · rcases List.mem_cons.mp h with h | h
                      · exact absurd h (by simp)
                      · exact ih (k + 1) n h
              | none =>
                  rw [hres] at h
                  rcases List.mem_cons.mp h with h | h
                  · injection h with h1
                    rw [h1]
                    exact hd
                  · rcases List.mem_cons.mp h with h | h
                    · exact absurd h (by simp)
                    · exact ih (k + 1) n h
        · rw [if_neg hc] at h
          exact absurd h (by simp)
  · intro env k n rest hc hne hd
    simp only [dialSeqGo]
    rw [if_pos hc, if_neg hne, if_pos hd]
  · intro env bs fuel
    induction fuel with
    | zero => intro k ns n h; simp [dialSimGo] at h
    | succ fuel ih =>
        intro k ns n h
        cases ns with
        | nil => simp [dialSimGo] at h
        | cons x rest =>
            unfold dialSimGo at h
            by_cases hc : env.contAt k = true
            · rw [if_pos hc] at h
              by_cases hempty : ((((x :: rest).take bs).map pyStrip).filter
                  (fun y => !(y = ""))).isEmpty = true
              · rw [if_pos hempty] at h
                exact ih (k + 1) _ n h
              · rw [if_neg hempty] at h
                rcases List.mem_append.mp h with h | h
                · rcases List.mem_append.mp h with h | h
                  · rcases List.mem_flatten.mp h with ⟨l, hl, hnl⟩
                    rcases List.mem_map.mp hl with ⟨num, _, hnum⟩
                    exact placeSingle_no_dnc env num n (hnum ▸ hnl)
                  · rcases List.mem_map.mp h with ⟨_, _, habs⟩;
                    exact absurd habs (by simp)
                · exact ih (k + 1) _ n h
            · rw [if_neg hc] at h
              exact absurd h (by simp)
  · intro env bs fuel k n ns hc hne
    conv_lhs => rw [dialSimGo]
    rw [if_pos hc, if_neg hne]
    simp only [countIncr, List.filter_append, List.length_append]
    have h1 : ∀ bn : List String,
        (((bn.map (placeSingle env)).flatten).filter (fun e => match e with
          | DialEvent.increment => true
          | _ => false)).length = 0 := by
      intro bn
      induction bn with
      | nil => rfl
      | cons y ys ihy =>
          simp only [List.map_cons, List.flatten_cons, List.filter_append,
            List.length_append, ihy]
          have := placeSingle_no_incr env y
          unfold countIncr at this
          omega
    have h2 : ∀ bn : List String,
        ((bn.map (fun _ => DialEvent.increment)).filter (fun e => match e with
          | DialEvent.increment => true
          | _ => false)).length = bn.length := by
      intro bn
      induction bn with
      | nil => rfl
      | cons y ys ihy => simp [ihy]
    rw [h1, h2]
    omega

/-- Shared concrete fixtures for witnesses. -/
def envW : DialEnv :=
  { contAt := fun _ => true
    dnc := ["+15551234567"]
    callResult := fun n => some ("id-" ++ n) }

theorem C7_dnc_skip_witness :
    dialSeqGo envW 0 ["+15551234567"] =
      DialEvent.increment :: dialSeqGo envW 1 [] ∧
    is_dnc envW.dnc "+15550009999" = false ∧
    countIncr (dialSimGo envW 2 1 0 ["+15551234567", "+15550009999"]) =
      ((((["+15551234567", "+15550009999"].take 2).map pyStrip).filter
        (fun x => !(x = ""))).length) +
      countIncr (dialSimGo envW 2 0 1
        (["+15551234567", "+15550009999"].drop 2)) := by
  refine ⟨?_, ?_, ?_⟩
  · exact C7_dnc_skip.2.1 envW 0 "+15551234567" [] (by decide) (by decide)
      (by decide)
  · exact C7_dnc_skip.1 envW 0 ["+15550009999"] "+15550009999" (by decide)
  · exact C7_dnc_skip.2.2.2 envW 2 0 0 "+15551234567" ["+15550009999"]
      (by decide) (by decide)

def camp0 : Campaign :=
  { active := true
    audio_url := none
    transfer_number := some "+15559999999"
    numbers := []
    dialed_count := 0
    stop_requested := false
    dial_mode := "sequential"
    batch_size := 5
    dial_delay := none }

def env0 : Env :=
  { telnyxFrom := "+15550000000"
    transferStatus := fun _ _ _ => 200
    personalizedUrl := fun _ => none
    pvmScript := fun _ => none
    vmSettings := none }

def rec0 : CallState := initialRecord "+15550000000" 0 "+15551234567"

/-- C8: a `call.transcription` event for a known id appends exactly one
transcript element to that record and changes nothing else - not the
record's other fields (in particular status), not other ids' records, and
no other component of the system state. -/
theorem C8_transcription_frame (env : Env) (now : Int) (s : SysState)
    (e : Ev) (st : CallState) (hev : e.event_type = "call.transcription")
    (hs : lookupCS s.calls e.call_control_id = some st)
    (htext : ¬(e.transcript_text = "")) :
    lookupCS (webhookStep env now s e).calls e.call_control_id =
      some { st with transcript := st.transcript ++
        [⟨e.transcript_text,
          pyOr2 e.track_field (pyOr2 e.transcription_event_type "inbound"),
          e.is_final⟩] } ∧
    (∀ k, ¬(k = e.call_control_id) →
      lookupCS (webhookStep env now s e).calls k = lookupCS s.calls k) ∧
    (webhookStep env now s e).history = s.history ∧
    (webhookStep env now s e).commands = s.commands ∧
    (webhookStep env now s e).timers = s.timers ∧
    (webhookStep env now s e).gate = s.gate ∧
    (webhookStep env now s e).registry = s.registry ∧
    (webhookStep env now s e).campaign = s.campaign := by
  have hred : webhookStep env now s e = handleTranscription s e := by
    rw [webhookStep_known env now s e (by rw [hs]; rfl),
        dispatch_transcription env now s e hev]
  rw [hred]
  simp only [handleTranscription]
  rw [if_neg htext]
  rw [append_transcript_run _ _ _ _ _ _ hs]
  refine ⟨?_, ?_, rfl, rfl, rfl, rfl, rfl, rfl⟩
  · exact lookupCS_updateCS_some _ _ _ _ hs
  · intro k hk
    exact lookupCS_updateCS_ne _ _ _ _ hk

def evT : Ev :=
  { event_type := "call.transcription"
    call_control_id := "abc"
    toNum := "+15551234567"
    fromNum := "+15550000000"
    result := ""
    transcript_text := "hello there"
    is_final := true
    track_field := ""
    transcription_event_type := ""
    hangup_cause := ""
    hangup_source := "" }

theorem C8_transcription_frame_witness :
    lookupCS (webhookStep env0 0
        { calls := [("abc", rec0)], history := [], timers := [], gate := [],
          registry := [], campaign := camp0, commands := [] } evT).calls
      "abc" =
      some { rec0 with transcript := rec0.transcript ++
        [⟨"hello there", "inbound", true⟩] } :=
  (C8_transcription_frame env0 0
    { calls := [("abc", rec0)], history := [], timers := [], gate := [],
      registry := [], campaign := camp0, commands := [] } evT rec0 rfl
    (by decide) (by decide)).1

theorem hangupUpdates_created_at (now : Int) (cause source : String)
    (st : CallState) :
    (hangupUpdates now cause source st).created_at = st.created_at := rfl

theorem handleHangup_run (now : Int) (s : SysState) (c cause source : String)
    (st : CallState) (hs : lookupCS s.calls c = some st) :
    (handleHangup now s c cause source).calls =
      updateCS s.calls c (fun _ => hangupUpdates now cause source st) ∧
    (handleHangup now s c cause source).history =
      (s.history ++ [mkHistEntry c (hangupUpdates now cause source st) now]).filter
        (fun h => now - sevenDays ≤ h.timestamp) ∧
    (handleHangup now s c cause source).registry =
      (signal_call_complete s.registry c).1 := by
  simp only [handleHangup]
  rw [hs]
  try dsimp only
  refine ⟨?_, ?_, ?_⟩
  · trivial
  · simp only [persist_call_log]
    rw [lookupCS_updateCS_some s.calls c st _ hs]
  · trivial

def recH : CallState := { rec0 with status := "answered", ring_start := none }

def evH : Ev :=
  { evT with event_type := "call.hangup", hangup_cause := "NORMAL_CLEARING",
             hangup_source := "callee", transcript_text := "" }

def s0H : SysState :=
  { calls := [("abc", recH)], history := [], timers := ["abc"], gate := [],
    registry := ["abc"], campaign := camp0, commands := [] }

def s0H2 : SysState :=
  { calls := [("abc", { rec0 with status := "hangup", ring_start := none })],
    history := [], timers := [], gate := [], registry := [],
    campaign := camp0, commands := [] }

/-- C3 counterexample: processing an identical second `call.hangup` for an
already finalized id appends a second copy of the history entry - the
claimed idempotence of the history write does not hold. -/
theorem C3_counterexample :
    (webhookStep env0 100 (webhookStep env0 100 s0H evH) evH).history.length = 2 ∧
    (webhookStep env0 100 s0H evH).history.length = 1 := by
  exact ⟨rfl, rfl⟩

/-- C3 (amended): re-delivering an identical `call.hangup` for an
already-finalized id is NOT idempotent on history - `persist_call_log`
unconditionally appends another copy of the entry, because the live record
is never evicted.  The completion-signal half of the claim does hold:
`signal_call_complete` on an id without a registered event leaves the
registry unchanged (no signal is re-fired). -/
theorem C3_second_hangup (env : Env) (now : Int) (s : SysState) (e : Ev)
    (st : CallState) (hev : e.event_type = "call.hangup")
    (hs : lookupCS s.calls e.call_control_id = some st)
    (hreg : s.registry.contains e.call_control_id = false) :
    (webhookStep env now s e).registry = s.registry ∧
    (webhookStep env now s e).history =
      (s.history ++ [mkHistEntry e.call_control_id
        (hangupUpdates now e.hangup_cause e.hangup_source st) now]).filter
        (fun h => now - sevenDays ≤ h.timestamp) ∧
    (now - sevenDays ≤ st.created_at →
      (webhookStep env now s e).history.length =
        (s.history.filter (fun h => now - sevenDays ≤ h.timestamp)).length + 1) := by
  have hred : webhookStep env now s e =
      handleHangup now s e.call_control_id e.hangup_cause e.hangup_source := by
    rw [webhookStep_known env now s e (by rw [hs]; rfl),
        dispatch_hangup env now s e hev]
  rw [hred]
  rcases handleHangup_run now s e.call_control_id e.hangup_cause
    e.hangup_source st hs with ⟨h1, h2, h3⟩
  refine ⟨?_, h2, ?_⟩
  · rw [h3]
    unfold signal_call_complete
    rw [if_neg (by rw [hreg]; decide)]
  · intro hwin
    rw [h2, List.filter_append]
    have hent : (mkHistEntry e.call_control_id
        (hangupUpdates now e.hangup_cause e.hangup_source st) now).timestamp =
        st.created_at := rfl
    rw [List.length_append]
    have hone : (List.filter (fun h => decide (now - sevenDays ≤ h.timestamp))
        [mkHistEntry e.call_control_id
          (hangupUpdates now e.hangup_cause e.hangup_source st) now]).length = 1 := by
      rw [List.filter_cons_of_pos]
      · rfl
      · rw [hent]
        exact decide_eq_true hwin
    omega

theorem C3_second_hangup_witness :
    (webhookStep env0 100 s0H2 evH).registry = s0H2.registry ∧
    (webhookStep env0 100 s0H2 evH).history.length = 1 := by
  refine ⟨?_, ?_⟩
  · exact (C3_second_hangup env0 100 s0H2 evH
      { rec0 with status := "hangup", ring_start := none } rfl rfl
      (by decide)).1
  · exact (C3_second_hangup env0 100 s0H2 evH
      { rec0 with status := "hangup", ring_start := none } rfl rfl
      (by decide)).2.2 (by decide)

/-- C5 counterexample: after the `call.hangup` event is processed, the
live call-state map STILL contains the id (no eviction happens), while the
claim says it no longer does. -/
theorem C5_counterexample :
    (lookupCS (webhookStep env0 100 s0H evH).calls "abc").isSome = true ∧
    (webhookStep env0 100 s0H evH).history.length = 1 := by
  exact ⟨rfl, rfl⟩

/-- C5 (amended): at finalized hangup the record is archived to history
storage (the finalized entry is in the history file), but the id is NOT
evicted from the live call-state map - the finalized record remains
stored under the id (it only disappears on campaign reset / clear). -/
theorem C5_hangup_archives_not_evicts (env : Env) (now : Int) (s : SysState)
    (e : Ev) (st : CallState) (hev : e.event_type = "call.hangup")
    (hs : lookupCS s.calls e.call_control_id = some st)
    (hwin : now - sevenDays ≤ st.created_at) :
    mkHistEntry e.call_control_id
      (hangupUpdates now e.hangup_cause e.hangup_source st) now ∈
      (webhookStep env now s e).history ∧
    lookupCS (webhookStep env now s e).calls e.call_control_id =
      some (hangupUpdates now e.hangup_cause e.hangup_source st) := by
  have hred : webhookStep env now s e =
      handleHangup now s e.call_control_id e.hangup_cause e.hangup_source := by
    rw [webhookStep_known env now s e (by rw [hs]; rfl),
        dispatch_hangup env now s e hev]
  rw [hred]
  rcases handleHangup_run now s e.call_control_id e.hangup_cause
    e.hangup_source st hs with ⟨h1, h2, h3⟩
  refine ⟨?_, ?_⟩
  · rw [h2]
    refine List.mem_filter.mpr ⟨List.mem_append_right _ (List.mem_singleton.mpr rfl), ?_⟩
    exact decide_eq_true hwin
  · rw [h1]
    exact lookupCS_updateCS_some s.calls _ st _ hs

theorem C5_hangup_archives_not_evicts_witness :
    lookupCS (webhookStep env0 100 s0H evH).calls "abc" =
      some (hangupUpdates 100 "NORMAL_CLEARING" "callee" recH) := by
  exact (C5_hangup_archives_not_evicts env0 100 s0H evH recH rfl rfl
    (by decide)).2

theorem doTransfer_timers (env : Env) (s : SysState) (c tn cn : String) :
    (doTransfer env s c tn cn).timers = s.timers := by
  unfold doTransfer
  dsimp only
  split_ifs <;> rfl

theorem amdHumanCore_timers (env : Env) (s1 : SysState) (c : String) :
    (amdHumanCore env s1 c).timers = s1.timers := by
  unfold amdHumanCore
  dsimp only
  split_ifs <;> simp [doTransfer_timers]

theorem amdMachineCore_timers (env : Env) (s1 : SysState) (c : String) :
    (amdMachineCore env s1 c).timers = s1.timers := by
  unfold amdMachineCore
  dsimp only
  split_ifs <;> rfl

theorem amdNotSureCore_timers (env : Env) (s1 : SysState) (c : String) :
    (amdNotSureCore env s1 c).timers = s1.timers := by
  unfold amdNotSureCore
  dsimp only
  split_ifs <;> simp [doTransfer_timers]

theorem handleAmd_timers (env : Env) (s : SysState) (c result : String)
    (st : CallState) (hs : lookupCS s.calls c = some st)
    (htr : st.transferred = false) :
    (handleAmd env s c result).timers = s.timers.erase c := by
  unfold handleAmd
  rw [if_neg (show ¬((lookupCS s.calls c).elim false (·.transferred) = true) by
    rw [hs]; simp [htr])]
  dsimp only
  rw [lookupCS_updateCS_some s.calls c st _ hs]
  try dsimp only
  split_ifs <;>
    simp [amdHumanCore_timers, amdMachineCore_timers, amdNotSureCore_timers]

theorem contains_erase_self_eq_false (l : List String) (c : String)
    (h : l.Nodup) : (l.erase c).contains c = false := by
  by_contra hc
  rw [Bool.not_eq_false] at hc
  have hmem : c ∈ l.erase c := by simpa using hc
  exact (h.mem_erase_iff.mp hmem).1 rfl

/-- C2: (a) over any interleaving of webhook deliveries and timer
expiries, at most one transfer command is ever issued for a call id whose
transfer accounting starts clean (the CAS invariant is preserved by every
step, so an AMD event racing the fallback can never cause a second
transfer); (b) when the fallback body runs for a call still waiting in
"answered" with a transfer number configured, it takes the human-transfer
path exactly once - one new transfer command, `amd_result` tagged
"timeout", and its own timer handle dropped so it cannot fire again; (c)
an AMD event delivered for a not-yet-transferred call cancels the armed
fallback timer, disabling any later expiry for that id. -/
theorem C2_amd_fallback_timer :
    (∀ (env : Env) (s0 : SysState) (steps : List Step) (id : String),
        TransferInv id s0 →
        tCount id (runSteps env s0 steps).commands ≤ 1) ∧
    (∀ (env : Env) (s : SysState) (c : String) (st : CallState),
        lookupCS s.calls c = some st →
        ¬(st.amd_received = some true) → st.status = "answered" →
        ¬((s.campaign.transfer_number).getD "" = "") → st.transferred = false →
        s.timers.Nodup →
        tCount c (amd_fallback env s c).commands = tCount c s.commands + 1 ∧
        (lookupCS (amd_fallback env s c).calls c).map (·.amd_result) =
          some (some "timeout") ∧
        stepOk (amd_fallback env s c) (Step.fire c) = false) ∧
    (∀ (env : Env) (now : Int) (s : SysState) (e : Ev) (st : CallState),
        e.event_type = "call.machine.detection.ended" →
        lookupCS s.calls e.call_control_id = some st → st.transferred = false →
        s.timers.Nodup →
        stepOk (webhookStep env now s e) (Step.fire e.call_control_id) = false) := by
  refine ⟨?_, ?_, ?_⟩
  · intro env s0 steps id h
    have hinv := runSteps_inv env s0 steps id h
    unfold TransferInv at hinv
    by_cases hf : transferredFlag (runSteps env s0 steps) id = true
    · rw [hf] at hinv
      simpa using hinv
    · rw [Bool.not_eq_true] at hf
      rw [hf] at hinv
      simp at hinv
      omega
  · intro env s c st hs hamd hst htn htr hnd
    rcases amd_fallback_run env s c st hs hamd hst htn htr with ⟨h1, h2, h3⟩
    refine ⟨h1, h2, ?_⟩
    show (amd_fallback env s c).timers.contains c = false
    rw [h3]
    exact contains_erase_self_eq_false s.timers c hnd
  · intro env now s e st hev hs htr hnd
    have hred : webhookStep env now s e =
        handleAmd env s e.call_control_id e.result := by
      rw [webhookStep_known env now s e (by rw [hs]; rfl),
          dispatch_amd env now s e hev]
    show (webhookStep env now s e).timers.contains e.call_control_id = false
    rw [hred, handleAmd_timers env s e.call_control_id e.result st hs htr]
    exact contains_erase_self_eq_false s.timers e.call_control_id hnd

def evA : Ev :=
  { evT with event_type := "call.machine.detection.ended",
             result := "human", transcript_text := "" }

theorem C2_amd_fallback_timer_witness :
    tCount "abc" (runSteps env0 s0H
      [Step.fire "abc", Step.fire "abc"]).commands ≤ 1 ∧
    tCount "abc" (amd_fallback env0 s0H "abc").commands =
      tCount "abc" s0H.commands + 1 ∧
    stepOk (amd_fallback env0 s0H "abc") (Step.fire "abc") = false ∧
    stepOk (webhookStep env0 0 s0H evA) (Step.fire "abc") = false := by
  refine ⟨?_, ?_, ?_, ?_⟩
  · exact C2_amd_fallback_timer.1 env0 s0H [Step.fire "abc", Step.fire "abc"]
      "abc" (by unfold TransferInv; decide)
  · exact (C2_amd_fallback_timer.2.1 env0 s0H "abc" recH rfl (by decide)
      (by decide) (by decide) (by decide) (by decide)).1
  · exact (C2_amd_fallback_timer.2.1 env0 s0H "abc" recH rfl (by decide)
      (by decide) (by decide) (by decide) (by decide)).2.2
  · exact C2_amd_fallback_timer.2.2 env0 0 s0H evA recH rfl rfl (by decide)
      (by decide)

theorem transfer_call_attempts (env : Env) (c tn cust : String)
    (hc : ¬(cust = ""))
    (hne : ¬(normalize_number cust = env.telnyxFrom)) :
    (transfer_call env c tn cust).1 =
      if env.transferStatus c (normalize_number tn) (normalize_number cust) = 403 then
        [(normalize_number cust,
          env.transferStatus c (normalize_number tn) (normalize_number cust)),
         (env.telnyxFrom,
          env.transferStatus c (normalize_number tn) env.telnyxFrom)]
      else
        [(normalize_number cust,
          env.transferStatus c (normalize_number tn) (normalize_number cust))] := by
  simp only [transfer_call]
  rw [if_neg hc]
  by_cases h4 : env.transferStatus c (normalize_number tn) (normalize_number cust) = 403
  · rw [if_pos ⟨h4, hc, hne⟩, if_pos h4]
  · rw [if_neg (fun h => h4 h.1), if_neg h4]

/-- C6: on an AMD "human" result for a call whose CAS succeeds, with a
transfer number configured exactly one transfer command is issued; on
command success the Transfer Gate is pinned for the id and status becomes
"transferred"; on failure status becomes "transfer_failed" and a hang-up
is issued; with no transfer number configured the call is hung up with
status "human_no_transfer" instead.  The transfer command's attempts are
first the customer's own number as caller-id, retried once with the
service's own number exactly when the provider answers 403. -/
theorem C6_human_transfer (env : Env) (now : Int) (s : SysState) (e : Ev)
    (st : CallState) (hev : e.event_type = "call.machine.detection.ended")
    (hres : e.result = "human")
    (hs : lookupCS s.calls e.call_control_id = some st)
    (htr : st.transferred = false) :
    (¬((s.campaign.transfer_number).getD "" = "") →
      ((transfer_call env e.call_control_id
          ((s.campaign.transfer_number).getD "") st.number).2 = true →
        (webhookStep env now s e).commands = s.commands ++
          [Command.transfer e.call_control_id
            (normalize_number ((s.campaign.transfer_number).getD ""))
            (transfer_call env e.call_control_id
              ((s.campaign.transfer_number).getD "") st.number).1] ∧
        is_active_transfer (webhookStep env now s e).gate
          e.call_control_id = true ∧
        (lookupCS (webhookStep env now s e).calls e.call_control_id).map
          (·.status) = some "transferred") ∧
      ((transfer_call env e.call_control_id
          ((s.campaign.transfer_number).getD "") st.number).2 = false →
        (webhookStep env now s e).commands = s.commands ++
          [Command.transfer e.call_control_id
            (normalize_number ((s.campaign.transfer_number).getD ""))
            (transfer_call env e.call_control_id
              ((s.campaign.transfer_number).getD "") st.number).1,
           Command.hangup e.call_control_id] ∧
        (lookupCS (webhookStep env now s e).calls e.call_control_id).map
          (·.status) = some "transfer_failed")) ∧
    (((s.campaign.transfer_number).getD "" = "") →
      (webhookStep env now s e).commands =
        s.commands ++ [Command.hangup e.call_control_id] ∧
      (lookupCS (webhookStep env now s e).calls e.call_control_id).map
        (·.status) = some "human_no_transfer") ∧
    (∀ cust, ¬(cust = "") → ¬(normalize_number cust = env.telnyxFrom) →
      (transfer_call env e.call_control_id
        ((s.campaign.transfer_number).getD "") cust).1 =
        if env.transferStatus e.call_control_id
            (normalize_number ((s.campaign.transfer_number).getD ""))
            (normalize_number cust) = 403 then
          [(normalize_number cust, env.transferStatus e.call_control_id
              (normalize_number ((s.campaign.transfer_number).getD ""))
              (normalize_number cust)),
           (env.telnyxFrom, env.transferStatus e.call_control_id
              (normalize_number ((s.campaign.transfer_number).getD ""))
              env.telnyxFrom)]
        else
          [(normalize_number cust, env.transferStatus e.call_control_id
              (normalize_number ((s.campaign.transfer_number).getD ""))
              (normalize_number cust))]) := by
  have hred : webhookStep env now s e = amdHumanCore env
      { s with timers := s.timers.erase e.call_control_id,
               calls := updateCS s.calls e.call_control_id
                 (fun x => { x with amd_received := some true }) }
      e.call_control_id := by
    rw [webhookStep_known env now s e (by rw [hs]; rfl),
        dispatch_amd env now s e hev, hres]
    exact handleAmd_human env s e.call_control_id st hs htr
  have hb := amdHumanCore_behavior env
      { s with timers := s.timers.erase e.call_control_id,
               calls := updateCS s.calls e.call_control_id
                 (fun x => { x with amd_received := some true }) }
      e.call_control_id { st with amd_received := some true }
      (lookupCS_updateCS_some s.calls e.call_control_id st _ hs) htr
  rw [hred]
  exact ⟨fun htn => ⟨fun hok => (hb.1 htn).1 hok, fun hbad => (hb.1 htn).2 hbad⟩,
    fun htn => hb.2 htn,
    fun cust hc hne => transfer_call_attempts env e.call_control_id _ cust hc hne⟩

theorem C6_human_transfer_witness :
    (webhookStep env0 0 s0H evA).commands = s0H.commands ++
      [Command.transfer "abc" (normalize_number "+15559999999")
        (transfer_call env0 "abc" "+15559999999" recH.number).1] ∧
    is_active_transfer (webhookStep env0 0 s0H evA).gate "abc" = true ∧
    (lookupCS (webhookStep env0 0 s0H evA).calls "abc").map (·.status) =
      some "transferred" := by
  exact ((C6_human_transfer env0 0 s0H evA recH rfl rfl rfl (by decide)).1
    (by decide)).1 (by decide)

/-- C9: `get_voicemail_url` never returns an empty url in any reachable
settings state (the save endpoint rejects empty urls and the hard-coded
default backs missing settings), so on an AMD "machine" result for a call
whose `mark_voicemail_dropped` CAS succeeds a play-audio command is always
issued - the "Voicemail failed - no audio" hang-up path is not taken. -/
theorem C9_voicemail_always_audio :
    (∀ vs, ReachableVmSettings vs → ¬(get_voicemail_url vs = "")) ∧
    (∀ (env : Env) (now : Int) (s : SysState) (e : Ev) (st : CallState),
        ReachableVmSettings env.vmSettings →
        e.event_type = "call.machine.detection.ended" →
        e.result = "machine" →
        lookupCS s.calls e.call_control_id = some st →
        st.transferred = false → st.voicemail_dropped = false →
        ∃ url, ¬(url = "") ∧
          (webhookStep env now s e).commands =
            s.commands ++ [Command.play e.call_control_id url] ∧
          (lookupCS (webhookStep env now s e).calls e.call_control_id).map
            (·.voicemail_dropped) = some true) := by
  refine ⟨get_voicemail_url_reachable_ne, ?_⟩
  intro env now s e st hreach hev hres hs htr hvd
  have hred : webhookStep env now s e = amdMachineCore env
      { s with timers := s.timers.erase e.call_control_id,
               calls := updateCS s.calls e.call_control_id
                 (fun x => { x with amd_received := some true }) }
      e.call_control_id := by
    rw [webhookStep_known env now s e (by rw [hs]; rfl),
        dispatch_amd env now s e hev, hres]
    exact handleAmd_machine env s e.call_control_id st hs htr
  have hau : ¬(pyOrS (if st.number = "" then none
      else env.personalizedUrl st.number)
      (pyOrS s.campaign.audio_url (get_voicemail_url env.vmSettings)) = "") :=
    pyOrS_ne_empty _ _ (pyOrS_ne_empty _ _
      (get_voicemail_url_reachable_ne _ hreach))
  have hb := amdMachineCore_behavior env
      { s with timers := s.timers.erase e.call_control_id,
               calls := updateCS s.calls e.call_control_id
                 (fun x => { x with amd_received := some true }) }
      e.call_control_id { st with amd_received := some true }
      (lookupCS_updateCS_some s.calls e.call_control_id st _ hs) hvd hau
  rw [hred]
  exact ⟨pyOrS (if st.number = "" then none else env.personalizedUrl st.number)
    (pyOrS s.campaign.audio_url (get_voicemail_url env.vmSettings)),
    hau, hb.1, hb.2⟩

def evM : Ev := { evA with result := "machine" }

theorem C9_voicemail_always_audio_witness :
    ¬(get_voicemail_url env0.vmSettings = "") ∧
    (∃ url, ¬(url = "") ∧
      (webhookStep env0 0 s0H evM).commands =
        s0H.commands ++ [Command.play "abc" url] ∧
      (lookupCS (webhookStep env0 0 s0H evM).calls "abc").map
        (·.voicemail_dropped) = some true) := by
  refine ⟨?_, ?_⟩
  · exact C9_voicemail_always_audio.1 env0.vmSettings ReachableVmSettings.init
  · exact C9_voicemail_always_audio.2 env0 0 s0H evM recH
      ReachableVmSettings.init rfl rfl rfl (by decide) (by decide)
